import Mathlib

/-!
Verification of the EMV merchant QR library (package `emvqr`).

Go strings are modelled as lists of byte values (`GoStr`); ASCII literals are
built with `gs`.  Fallible Go functions are modelled with the `Res` type,
which distinguishes a returned error from a Go run-time panic (slice out of
range, `mustEncodeTLV`).  Machine integers are modelled as `Nat`/`Int` with
explicit `% 65536` where the Go code relies on `uint16` truncation.
`strconv.Atoi` is modelled by `goAtoi` (sign plus decimal digits; the 64-bit
overflow bound is omitted, which is unreachable at every modelled call site
because out-of-range values are rejected by the surrounding range checks).
-/

set_option maxRecDepth 40000

namespace EmvQr

/-- A Go string: a list of byte values. -/
abbrev GoStr := List Nat

/-- Build a `GoStr` from an ASCII Lean string literal. -/
def gs (s : String) : GoStr := s.data.map Char.toNat

/-- Result of a Go call: a value, a returned error, or a run-time panic. -/
inductive Res (ε : Type) (α : Type) where
  | ok : α → Res ε α
  | err : ε → Res ε α
  | panicked : Res ε α
deriving DecidableEq, Repr

/-- Sequencing of Go calls: errors and panics short-circuit. -/
def Res.bind {ε α β : Type} (x : Res ε α) (f : α → Res ε β) : Res ε β :=
  match x with
  | .ok a => f a
  | .err e => .err e
  | .panicked => .panicked

/-- Map over the value of a `Res`. -/
def Res.map {ε α β : Type} (f : α → β) (x : Res ε α) : Res ε β :=
  match x with
  | .ok a => .ok (f a)
  | .err e => .err e
  | .panicked => .panicked

/-- A raw TLV data object (`tlvObject` in tlv.go). -/
structure TLVObj where
  id : GoStr := []
  value : GoStr := []
deriving DecidableEq, Repr

/-- A generic data object (`DataObject` in emvqr.go). -/
structure DataObject where
  id : GoStr := []
  value : GoStr := []
deriving DecidableEq, Repr

/-- `MerchantAccountInfo` from emvqr.go. -/
structure MerchantAccountInfo where
  id : GoStr := []
  value : GoStr := []
  subFields : List DataObject := []
deriving DecidableEq, Repr

/-- `AdditionalDataField` from emvqr.go. -/
structure AdditionalDataField where
  billNumber : GoStr := []
  mobileNumber : GoStr := []
  storeLabel : GoStr := []
  loyaltyNumber : GoStr := []
  referenceLabel : GoStr := []
  customerLabel : GoStr := []
  terminalLabel : GoStr := []
  purposeOfTransaction : GoStr := []
  additionalConsumerDataRequest : GoStr := []
  rfuFields : List DataObject := []
deriving DecidableEq, Repr

/-- `LanguageTemplate` from emvqr.go. -/
structure LanguageTemplate where
  languagePreference : GoStr := []
  merchantName : GoStr := []
  merchantCity : GoStr := []
  rfuFields : List DataObject := []
deriving DecidableEq, Repr

/-- `UnreservedTemplate` from emvqr.go. -/
structure UnreservedTemplate where
  id : GoStr := []
  globallyUniqueID : GoStr := []
  subFields : List DataObject := []
deriving DecidableEq, Repr

/-- `Payload` from emvqr.go (zero values of the Go struct as defaults). -/
structure Payload where
  payloadFormatIndicator : GoStr := []
  merchantAccountInfos : List MerchantAccountInfo := []
  merchantCategoryCode : GoStr := []
  transactionCurrency : GoStr := []
  transactionAmount : GoStr := []
  tipOrConvenienceIndicator : GoStr := []
  valueConvenienceFeeFixed : GoStr := []
  valueConvenienceFeePercent : GoStr := []
  countryCode : GoStr := []
  merchantName : GoStr := []
  merchantCity : GoStr := []
  postalCode : GoStr := []
  additionalData : Option AdditionalDataField := none
  languageTemplate : Option LanguageTemplate := none
  unreservedTemplates : List UnreservedTemplate := []
  crc : GoStr := []
  rfuFields : List DataObject := []
deriving DecidableEq, Repr

/-! ### strconv.Atoi model -/

/-- The numeric value of a decimal digit byte, if it is one. -/
def digitVal (b : Nat) : Option Nat :=
  if 48 ≤ b ∧ b ≤ 57 then some (b - 48) else none

/-- Accumulate a decimal numeral; `none` if any byte is not a digit. -/
def decDigits : List Nat → Nat → Option Nat
  | [], acc => some acc
  | b :: bs, acc =>
    match digitVal b with
    | some d => decDigits bs (10 * acc + d)
    | none => none

/-- `strconv.Atoi`: optional sign followed by at least one decimal digit. -/
def goAtoi (s : GoStr) : Option Int :=
  match s with
  | [] => none
  | b :: rest =>
    if b = 43 then
      (if rest = [] then none else (decDigits rest 0).map Int.ofNat)
    else if b = 45 then
      (if rest = [] then none else (decDigits rest 0).map (fun n => -(n : Int)))
    else (decDigits (b :: rest) 0).map Int.ofNat

/-! ### The TLV codec (tlv.go) -/

/-- Decode-side error kinds (the sentinel errors of emvqr.go, plus the
`ParseError` wrapper that records the offending field ID). -/
inductive DecErr where
  | invalidLength
  | invalidTLV
  | crcMismatch
  | parseErr (id : GoStr)
deriving DecidableEq, Repr

/-- One iteration of the `parseTLV` loop body on a non-empty input, with the
continuation `recur` standing for the parse of the remaining input.  A
negative parsed length reproduces the Go slice-bounds panic of
`s[4 : 4+length]`. -/
def parseTLVStep (recur : GoStr → Res DecErr (List TLVObj)) (s : GoStr) :
    Res DecErr (List TLVObj) :=
  if s.length < 4 then .err .invalidTLV
  else
    match goAtoi ((s.drop 2).take 2) with
    | none => .err .invalidTLV
    | some len =>
      if (s.length : Int) < 4 + len then .err .invalidTLV
      else if len < 0 then .panicked
      else
        match recur (s.drop (4 + len.toNat)) with
        | .ok rest => .ok (⟨s.take 2, (s.drop 4).take len.toNat⟩ :: rest)
        | .err e => .err e
        | .panicked => .panicked

/-- Step-bounded `parseTLV`.  The fuel argument only serves structural
recursion; `fuel ≥ s.length` always suffices. -/
def parseTLVAux : Nat → GoStr → Res DecErr (List TLVObj)
  | _, [] => .ok []
  | 0, _ :: _ => .err .invalidTLV
  | fuel + 1, b :: bs => parseTLVStep (parseTLVAux fuel) (b :: bs)

/-- `parseTLV` from tlv.go: split a raw string into TLV data objects. -/
def parseTLV (s : GoStr) : Res DecErr (List TLVObj) :=
  parseTLVAux s.length s

/-- The zero-padded two-digit decimal length field (`%02d`, for n ≤ 99). -/
def encLen (n : Nat) : GoStr := [48 + n / 10, 48 + n % 10]

/-- `encodeTLV` from tlv.go; `none` models the value-too-long error. -/
def encodeTLV (id value : GoStr) : Option GoStr :=
  if 99 < value.length then none
  else some (id ++ encLen value.length ++ value)

/-- `mustEncodeTLV`/`write` from tlv.go and encode.go: panics on a
value longer than 99 bytes. -/
def writeTLV {ε : Type} (id value : GoStr) : Res ε GoStr :=
  match encodeTLV id value with
  | some s => .ok s
  | none => .panicked

/-! ### The CRC module (crc16CCITT / crcString) -/

/-- One shift step of CRC-16/CCITT-FALSE on a 16-bit register. -/
def crc16Shift (c : Nat) : Nat :=
  if c &&& 0x8000 ≠ 0 then ((c <<< 1) % 65536) ^^^ 0x1021 else (c <<< 1) % 65536

/-- Process one byte: xor into the high byte, then eight shift steps. -/
def crc16Byte (c b : Nat) : Nat :=
  crc16Shift (crc16Shift (crc16Shift (crc16Shift
    (crc16Shift (crc16Shift (crc16Shift (crc16Shift
      (c ^^^ ((b % 256) <<< 8)))))))))

/-- The byte loop of `crc16CCITT`.  The match on the accumulator value keeps
it in evaluated (numeral) form at every step, which keeps kernel reduction of
concrete checksums shallow; the branches are value-identical. -/
def crc16Run : Nat → GoStr → Nat
  | c, [] => c
  | c, b :: bs =>
    match crc16Byte c b with
    | 0 => crc16Run 0 bs
    | m + 1 => crc16Run (m + 1) bs

/-- `crc16CCITT`: polynomial 0x1021, initial value 0xFFFF, no reflection,
zero xor-out. -/
def crc16CCITT (data : GoStr) : Nat := crc16Run 0xFFFF data

/-- One upper-case hexadecimal digit byte. -/
def hexDigit (n : Nat) : Nat := if n < 10 then 48 + n else 55 + n

/-- `crcString`: `%04X` of a 16-bit value. -/
def crcString (v : Nat) : GoStr :=
  [hexDigit (v / 4096 % 16), hexDigit (v / 256 % 16), hexDigit (v / 16 % 16), hexDigit (v % 16)]

/-! ### CRC validation (decode.go) -/

/-- ASCII lower-casing of one byte (`strings.EqualFold` restricted to the
ASCII bytes that can occur in a CRC comparison). -/
def foldByte (b : Nat) : Nat := if 65 ≤ b ∧ b ≤ 90 then b + 32 else b

/-- Case-insensitive string comparison (`strings.EqualFold`). -/
def eqFold (a b : GoStr) : Bool := a.map foldByte == b.map foldByte

/-- ASCII upper-casing of one byte (`strings.ToUpper`). -/
def upperByte (b : Nat) : Nat := if 97 ≤ b ∧ b ≤ 122 then b - 32 else b

/-- Whether `pat` occurs in `s` at byte offset `i`. -/
def matchAt (s pat : GoStr) (i : Nat) : Bool := (s.drop i).take pat.length == pat

/-- Scan downward from offset `i` for the last occurrence of `pat`. -/
def goLastIndexAux (s pat : GoStr) : Nat → Option Nat
  | 0 => if matchAt s pat 0 then some 0 else none
  | i + 1 => if matchAt s pat (i + 1) then some (i + 1) else goLastIndexAux s pat i

/-- `strings.LastIndex`: offset of the last occurrence of `pat` in `s`. -/
def goLastIndex (s pat : GoStr) : Option Nat := goLastIndexAux s pat s.length

/-- `validateCRC` from decode.go.  The CRC field is located by searching for
the last occurrence of the literal `"6304"`; if fewer than four bytes follow
it, the Go slice `raw[crcFieldStart+4 : crcFieldStart+8]` panics. -/
def validateCRC (raw : GoStr) : Res DecErr Unit :=
  if raw.length < 8 then .err .invalidTLV
  else
    match goLastIndex raw (gs "6304") with
    | none => .err .invalidTLV
    | some st =>
      if raw.length < st + 8 then .panicked
      else if eqFold ((raw.drop (st + 4)).take 4) (crcString (crc16CCITT (raw.take (st + 4)))) then
        .ok ()
      else .err .crcMismatch

/-! ### Field classification and the decode mapper (decode.go) -/

/-- `isMerchantAccountInfo`: id parses to a number in [2, 51]. -/
def isMerchantAccountInfo (id : GoStr) : Bool :=
  match goAtoi id with
  | some n => decide (2 ≤ n ∧ n ≤ 51)
  | none => false

/-- `isUnreservedTemplate`: id parses to a number in [80, 99]. -/
def isUnreservedTemplate (id : GoStr) : Bool :=
  match goAtoi id with
  | some n => decide (80 ≤ n ∧ n ≤ 99)
  | none => false

/-- `decodeMerchantAccountInfo` from decode.go: template IDs recursively
parse sub-fields, every other ID keeps the raw value. -/
def decodeMerchantAccountInfo (id val : GoStr) : Res DecErr MerchantAccountInfo :=
  let n := (goAtoi id).getD 0
  if 26 ≤ n ∧ n ≤ 51 then
    match parseTLV val with
    | .ok subs => .ok ⟨id, [], subs.map (fun s => ⟨s.id, s.value⟩)⟩
    | .err _ => .err (.parseErr id)
    | .panicked => .panicked
  else .ok ⟨id, val, []⟩

/-- One step of the sub-field switch of `decodeAdditionalDataField`. -/
def adfApply (a : AdditionalDataField) (s : TLVObj) : AdditionalDataField :=
  if s.id = gs "01" then { a with billNumber := s.value }
  else if s.id = gs "02" then { a with mobileNumber := s.value }
  else if s.id = gs "03" then { a with storeLabel := s.value }
  else if s.id = gs "04" then { a with loyaltyNumber := s.value }
  else if s.id = gs "05" then { a with referenceLabel := s.value }
  else if s.id = gs "06" then { a with customerLabel := s.value }
  else if s.id = gs "07" then { a with terminalLabel := s.value }
  else if s.id = gs "08" then { a with purposeOfTransaction := s.value }
  else if s.id = gs "09" then { a with additionalConsumerDataRequest := s.value }
  else { a with rfuFields := a.rfuFields ++ [⟨s.id, s.value⟩] }

/-- `decodeAdditionalDataField` from decode.go. -/
def decodeAdditionalDataField (val : GoStr) : Res DecErr AdditionalDataField :=
  match parseTLV val with
  | .ok subs => .ok (subs.foldl adfApply {})
  | .err e => .err e
  | .panicked => .panicked

/-- One step of the sub-field switch of `decodeLanguageTemplate`. -/
def langApply (l : LanguageTemplate) (s : TLVObj) : LanguageTemplate :=
  if s.id = gs "00" then { l with languagePreference := s.value }
  else if s.id = gs "01" then { l with merchantName := s.value }
  else if s.id = gs "02" then { l with merchantCity := s.value }
  else { l with rfuFields := l.rfuFields ++ [⟨s.id, s.value⟩] }

/-- `decodeLanguageTemplate` from decode.go. -/
def decodeLanguageTemplate (val : GoStr) : Res DecErr LanguageTemplate :=
  match parseTLV val with
  | .ok subs => .ok (subs.foldl langApply {})
  | .err e => .err e
  | .panicked => .panicked

/-- One step of the sub-field loop of `decodeUnreservedTemplate`. -/
def utApply (u : UnreservedTemplate) (s : TLVObj) : UnreservedTemplate :=
  if s.id = gs "00" then { u with globallyUniqueID := s.value }
  else { u with subFields := u.subFields ++ [⟨s.id, s.value⟩] }

/-- `decodeUnreservedTemplate` from decode.go. -/
def decodeUnreservedTemplate (id val : GoStr) : Res DecErr UnreservedTemplate :=
  match parseTLV val with
  | .ok subs => .ok (subs.foldl utApply ⟨id, [], []⟩)
  | .err _ => .err (.parseErr id)
  | .panicked => .panicked

/-- `applyObject` from decode.go: map one top-level TLV object onto the
payload, following the Go switch in source order. -/
def applyObject (p : Payload) (obj : TLVObj) : Res DecErr Payload :=
  let id := obj.id
  let val := obj.value
  if id = gs "00" then .ok { p with payloadFormatIndicator := val }
  else if isMerchantAccountInfo id then
    match decodeMerchantAccountInfo id val with
    | .ok m => .ok { p with merchantAccountInfos := p.merchantAccountInfos ++ [m] }
    | .err e => .err e
    | .panicked => .panicked
  else if id = gs "52" then .ok { p with merchantCategoryCode := val }
  else if id = gs "53" then .ok { p with transactionCurrency := val }
  else if id = gs "54" then .ok { p with transactionAmount := val }
  else if id = gs "55" then .ok { p with tipOrConvenienceIndicator := val }
  else if id = gs "56" then .ok { p with valueConvenienceFeeFixed := val }
  else if id = gs "57" then .ok { p with valueConvenienceFeePercent := val }
  else if id = gs "58" then .ok { p with countryCode := val }
  else if id = gs "59" then .ok { p with merchantName := val }
  else if id = gs "60" then .ok { p with merchantCity := val }
  else if id = gs "61" then .ok { p with postalCode := val }
  else if id = gs "62" then
    match decodeAdditionalDataField val with
    | .ok a => .ok { p with additionalData := some a }
    | .err _ => .err (.parseErr id)
    | .panicked => .panicked
  else if id = gs "63" then .ok { p with crc := val.map upperByte }
  else if id = gs "64" then
    match decodeLanguageTemplate val with
    | .ok l => .ok { p with languageTemplate := some l }
    | .err _ => .err (.parseErr id)
    | .panicked => .panicked
  else if isUnreservedTemplate id then
    match decodeUnreservedTemplate id val with
    | .ok u => .ok { p with unreservedTemplates := p.unreservedTemplates ++ [u] }
    | .err e => .err e
    | .panicked => .panicked
  else .ok { p with rfuFields := p.rfuFields ++ [⟨id, val⟩] }

/-- Apply a sequence of top-level objects in order (the decode loop). -/
def applyObjects (p : Payload) : List TLVObj → Res DecErr Payload
  | [] => .ok p
  | o :: os =>
    match applyObject p o with
    | .ok q => applyObjects q os
    | .err e => .err e
    | .panicked => .panicked

/-- `DecodeWithOptions` from decode.go; `skip` is `SkipCRCValidation`. -/
def decodeWith (skip : Bool) (raw : GoStr) : Res DecErr Payload :=
  if raw.length < 4 then .err .invalidLength
  else
    match (if skip then .ok () else validateCRC raw) with
    | .ok _ =>
      match parseTLV raw with
      | .ok objs => applyObjects {} objs
      | .err e => .err e
      | .panicked => .panicked
    | .err e => .err e
    | .panicked => .panicked

/-- `Decode` from decode.go: CRC validation enabled. -/
def decode (raw : GoStr) : Res DecErr Payload := decodeWith false raw

/-! ### The validator and the encode mapper (encode.go) -/

/-- The required fields named by `validatePayload`. -/
inductive ReqField where
  | mcc
  | currency
  | country
  | name
  | city
  | mai
deriving DecidableEq, Repr

/-- Errors arising while serializing one chunk of the payload body. -/
inductive ChunkErr where
  | mai (id : GoStr)
  | adf
  | lang
  | ut (id : GoStr)
deriving DecidableEq, Repr

/-- Encode-side error kinds. -/
inductive EncErr where
  | missingRequired (f : ReqField)
  | invalidTipIndicator
  | chunk (c : ChunkErr)
deriving DecidableEq, Repr

/-- `validatePayload` from encode.go, in source order. -/
def validatePayload (p : Payload) : Option EncErr :=
  if p.merchantCategoryCode = [] then some (.missingRequired .mcc)
  else if p.transactionCurrency = [] then some (.missingRequired .currency)
  else if p.countryCode = [] then some (.missingRequired .country)
  else if p.merchantName = [] then some (.missingRequired .name)
  else if p.merchantCity = [] then some (.missingRequired .city)
  else if p.merchantAccountInfos = [] then some (.missingRequired .mai)
  else if p.tipOrConvenienceIndicator = [] ∨ p.tipOrConvenienceIndicator = gs "01" ∨
          p.tipOrConvenienceIndicator = gs "02" ∨ p.tipOrConvenienceIndicator = gs "03" then
    none
  else some .invalidTipIndicator

/-- `MerchantAccountInfo.IsTemplate` from emvqr.go. -/
def MerchantAccountInfo.isTemplateID (m : MerchantAccountInfo) : Bool :=
  match goAtoi m.id with
  | some n => decide (26 ≤ n ∧ n ≤ 51)
  | none => false

/-- Serialize a list of data objects, stopping at the first length error. -/
def encodeDataObjects : List DataObject → Option GoStr
  | [] => some []
  | d :: ds =>
    match encodeTLV d.id d.value with
    | none => none
    | some c =>
      match encodeDataObjects ds with
      | none => none
      | some rest => some (c ++ rest)

/-- Serialize data objects, skipping empty values (`appendIf`). -/
def encodeSkipEmpty : List DataObject → Option GoStr
  | [] => some []
  | d :: ds =>
    if d.value = [] then encodeSkipEmpty ds
    else
      match encodeTLV d.id d.value with
      | none => none
      | some c =>
        match encodeSkipEmpty ds with
        | none => none
        | some rest => some (c ++ rest)

/-- `encodeMerchantAccountInfo` from encode.go. -/
def encodeMerchantAccountInfo (m : MerchantAccountInfo) : Option GoStr :=
  if m.isTemplateID then
    match encodeDataObjects m.subFields with
    | none => none
    | some inner => encodeTLV m.id inner
  else encodeTLV m.id m.value

/-- The encode loop over merchant account entries. -/
def encodeMAIs : List MerchantAccountInfo → Res ChunkErr GoStr
  | [] => .ok []
  | m :: ms =>
    match encodeMerchantAccountInfo m with
    | none => .err (.mai m.id)
    | some c =>
      match encodeMAIs ms with
      | .ok rest => .ok (c ++ rest)
      | .err e => .err e
      | .panicked => .panicked

/-- The nine named sub-fields of the Additional Data Field, in the fixed
serialization order of encode.go. -/
def adfNamedPairs (a : AdditionalDataField) : List DataObject :=
  [⟨gs "01", a.billNumber⟩, ⟨gs "02", a.mobileNumber⟩, ⟨gs "03", a.storeLabel⟩,
   ⟨gs "04", a.loyaltyNumber⟩, ⟨gs "05", a.referenceLabel⟩, ⟨gs "06", a.customerLabel⟩,
   ⟨gs "07", a.terminalLabel⟩, ⟨gs "08", a.purposeOfTransaction⟩,
   ⟨gs "09", a.additionalConsumerDataRequest⟩]

/-- `encodeAdditionalDataField` from encode.go: named fields then RFU
sub-objects, all through `appendIf` (empty values skipped). -/
def encodeAdditionalDataField (a : AdditionalDataField) : Option GoStr :=
  match encodeSkipEmpty (adfNamedPairs a ++ a.rfuFields) with
  | none => none
  | some inner => encodeTLV (gs "62") inner

/-- `encodeLanguageTemplate` from encode.go: language/name/city skipping
absent ones, then all RFU sub-objects. -/
def encodeLanguageTemplate (l : LanguageTemplate) : Option GoStr :=
  match encodeSkipEmpty [⟨gs "00", l.languagePreference⟩, ⟨gs "01", l.merchantName⟩,
                         ⟨gs "02", l.merchantCity⟩] with
  | none => none
  | some a =>
    match encodeDataObjects l.rfuFields with
    | none => none
    | some b => encodeTLV (gs "64") (a ++ b)

/-- `encodeUnreservedTemplate` from encode.go: the ID must parse into
[80, 99]; the GUID sub-field is emitted if non-empty, then the sub-fields. -/
def encodeUnreservedTemplate (ut : UnreservedTemplate) : Option GoStr :=
  match goAtoi ut.id with
  | none => none
  | some n =>
    if n < 80 ∨ 99 < n then none
    else
      match encodeSkipEmpty [⟨gs "00", ut.globallyUniqueID⟩] with
      | none => none
      | some a =>
        match encodeDataObjects ut.subFields with
        | none => none
        | some b => encodeTLV ut.id (a ++ b)

/-- The encode loop over unreserved templates. -/
def encodeUTs : List UnreservedTemplate → Res ChunkErr GoStr
  | [] => .ok []
  | ut :: uts =>
    match encodeUnreservedTemplate ut with
    | none => .err (.ut ut.id)
    | some c =>
      match encodeUTs uts with
      | .ok rest => .ok (c ++ rest)
      | .err e => .err e
      | .panicked => .panicked

/-- The encode loop over top-level RFU fields (plain `write`, may panic). -/
def encodeRFUs {ε : Type} : List DataObject → Res ε GoStr
  | [] => .ok []
  | d :: ds =>
    Res.bind (writeTLV d.id d.value) fun c =>
    Res.bind (encodeRFUs ds) fun rest =>
    .ok (c ++ rest)

/-- The payload format indicator actually written (default "01"). -/
def effectivePFI (p : Payload) : GoStr :=
  if p.payloadFormatIndicator = [] then gs "01" else p.payloadFormatIndicator

/-- The tip/fee chunk of the encoder: the indicator, then the fee value
matching the indicator if present. -/
def tipChunk (p : Payload) : Res ChunkErr GoStr :=
  if p.tipOrConvenienceIndicator = [] then .ok []
  else
    Res.bind (writeTLV (gs "55") p.tipOrConvenienceIndicator) fun a =>
    Res.bind
      (if p.tipOrConvenienceIndicator = gs "02" then
        (if p.valueConvenienceFeeFixed = [] then .ok []
         else writeTLV (gs "56") p.valueConvenienceFeeFixed)
       else if p.tipOrConvenienceIndicator = gs "03" then
        (if p.valueConvenienceFeePercent = [] then .ok []
         else writeTLV (gs "57") p.valueConvenienceFeePercent)
       else .ok []) fun b =>
    .ok (a ++ b)

/-- The optional Additional Data Field chunk. -/
def adfChunk (p : Payload) : Res ChunkErr GoStr :=
  match p.additionalData with
  | none => .ok []
  | some a =>
    match encodeAdditionalDataField a with
    | some c => .ok c
    | none => .err .adf

/-- The optional language template chunk. -/
def langChunk (p : Payload) : Res ChunkErr GoStr :=
  match p.languageTemplate with
  | none => .ok []
  | some l =>
    match encodeLanguageTemplate l with
    | some c => .ok c
    | none => .err .lang

/-- The body of `EncodeWithOptions` (default options): every field chunk in
canonical order, before the CRC is appended. -/
def encodeFields (p : Payload) : Res ChunkErr GoStr :=
  Res.bind (writeTLV (gs "00") (effectivePFI p)) fun s0 =>
  Res.bind (encodeMAIs p.merchantAccountInfos) fun s1 =>
  Res.bind (writeTLV (gs "52") p.merchantCategoryCode) fun s2 =>
  Res.bind (writeTLV (gs "53") p.transactionCurrency) fun s3 =>
  Res.bind (if p.transactionAmount = [] then .ok []
            else writeTLV (gs "54") p.transactionAmount) fun s4 =>
  Res.bind (tipChunk p) fun s5 =>
  Res.bind (writeTLV (gs "58") p.countryCode) fun s6 =>
  Res.bind (writeTLV (gs "59") p.merchantName) fun s7 =>
  Res.bind (writeTLV (gs "60") p.merchantCity) fun s8 =>
  Res.bind (if p.postalCode = [] then .ok []
            else writeTLV (gs "61") p.postalCode) fun s9 =>
  Res.bind (adfChunk p) fun s10 =>
  Res.bind (langChunk p) fun s11 =>
  Res.bind (encodeUTs p.unreservedTemplates) fun s12 =>
  Res.bind (encodeRFUs p.rfuFields) fun s13 =>
  .ok (s0 ++ s1 ++ s2 ++ s3 ++ s4 ++ s5 ++ s6 ++ s7 ++ s8 ++ s9 ++ s10 ++ s11 ++ s12 ++ s13)

/-- `Encode` from encode.go: validate, serialize the body, then append the
CRC field computed over the body plus the literal `"6304"` header. -/
def encode (p : Payload) : Res EncErr GoStr :=
  match validatePayload p with
  | some e => .err e
  | none =>
    match encodeFields p with
    | .ok body => .ok (body ++ gs "6304" ++ crcString (crc16CCITT (body ++ gs "6304")))
    | .err c => .err (.chunk c)
    | .panicked => .panicked

/-! ### Derived-value helpers (part of helpers.go) -/

/-- `PreferredMerchantName` from helpers.go. -/
def preferredMerchantName (p : Payload) (lang : GoStr) : GoStr :=
  match p.languageTemplate with
  | some lt =>
    if lt.merchantName ≠ [] then
      (if lt.languagePreference = lang then lt.merchantName else p.merchantName)
    else p.merchantName
  | none => p.merchantName

/-- `PreferredMerchantCity` from helpers.go. -/
def preferredMerchantCity (p : Payload) (lang : GoStr) : GoStr :=
  match p.languageTemplate with
  | some lt =>
    if lt.merchantCity ≠ [] then
      (if lt.languagePreference = lang then lt.merchantCity else p.merchantCity)
    else p.merchantCity
  | none => p.merchantCity

/-! ### Wire-form bookkeeping used by the statements -/

/-- Whether a `Res` is a returned error (neither a value nor a panic). -/
def Res.isErr {ε α : Type} : Res ε α → Bool
  | .err _ => true
  | _ => false

/-- Whether a `Res` is a successfully returned value. -/
def Res.isOk {ε α : Type} : Res ε α → Bool
  | .ok _ => true
  | _ => false

/-- The wire form of one TLV unit: id, zero-padded two-digit length, value. -/
def unitStr (u : TLVObj) : GoStr := u.id ++ encLen u.value.length ++ u.value

/-- The wire form of a sequence of TLV units. -/
def concatUnits (us : List TLVObj) : GoStr := (us.map unitStr).flatten

/-- A well-formed unit: a 2-character id and a value of at most 99 bytes. -/
def wfUnit (u : TLVObj) : Prop := u.id.length = 2 ∧ u.value.length ≤ 99

instance (u : TLVObj) : Decidable (wfUnit u) := by
  unfold wfUnit
  infer_instance

/-- View a `DataObject` as a TLV unit. -/
def doUnit (d : DataObject) : TLVObj := ⟨d.id, d.value⟩

/-- Drop the data objects with empty values (the effect of `appendIf`). -/
def skipEmpty (ds : List DataObject) : List DataObject :=
  ds.filter fun d => !(d.value == [])

/-- The unit emitted for an optional field: nothing when the value is empty. -/
def optUnits (id v : GoStr) : List TLVObj := if v = [] then [] else [⟨id, v⟩]

/-- The top-level unit emitted for one merchant account entry. -/
def maiUnit (m : MerchantAccountInfo) : TLVObj :=
  if m.isTemplateID then ⟨m.id, concatUnits (m.subFields.map doUnit)⟩
  else ⟨m.id, m.value⟩

/-- The units emitted by the tip/fee block of the encoder. -/
def tipUnits (p : Payload) : List TLVObj :=
  if p.tipOrConvenienceIndicator = [] then []
  else
    ⟨gs "55", p.tipOrConvenienceIndicator⟩ ::
      (if p.tipOrConvenienceIndicator = gs "02" then
        optUnits (gs "56") p.valueConvenienceFeeFixed
       else if p.tipOrConvenienceIndicator = gs "03" then
        optUnits (gs "57") p.valueConvenienceFeePercent
       else [])

/-- The inner units of the Additional Data Field on the wire. -/
def adfInnerUnits (a : AdditionalDataField) : List TLVObj :=
  (skipEmpty (adfNamedPairs a ++ a.rfuFields)).map doUnit

/-- The top-level unit emitted for the Additional Data Field, if present. -/
def adfUnits (p : Payload) : List TLVObj :=
  match p.additionalData with
  | none => []
  | some a => [⟨gs "62", concatUnits (adfInnerUnits a)⟩]

/-- The inner units of the language template on the wire. -/
def langInnerUnits (l : LanguageTemplate) : List TLVObj :=
  (skipEmpty [⟨gs "00", l.languagePreference⟩, ⟨gs "01", l.merchantName⟩,
              ⟨gs "02", l.merchantCity⟩]).map doUnit ++ l.rfuFields.map doUnit

/-- The top-level unit emitted for the language template, if present. -/
def langUnits (p : Payload) : List TLVObj :=
  match p.languageTemplate with
  | none => []
  | some l => [⟨gs "64", concatUnits (langInnerUnits l)⟩]

/-- The inner units of one unreserved template on the wire. -/
def utInnerUnits (ut : UnreservedTemplate) : List TLVObj :=
  (skipEmpty [⟨gs "00", ut.globallyUniqueID⟩]).map doUnit ++ ut.subFields.map doUnit

/-- The top-level unit emitted for one unreserved template. -/
def utUnit (ut : UnreservedTemplate) : TLVObj := ⟨ut.id, concatUnits (utInnerUnits ut)⟩

/-- Every top-level unit of the encoded body, in emission order. -/
def topUnits (p : Payload) : List TLVObj :=
  ⟨gs "00", effectivePFI p⟩ :: (p.merchantAccountInfos.map maiUnit ++
    (⟨gs "52", p.merchantCategoryCode⟩ :: ⟨gs "53", p.transactionCurrency⟩ ::
      (optUnits (gs "54") p.transactionAmount ++ (tipUnits p ++
        (⟨gs "58", p.countryCode⟩ :: ⟨gs "59", p.merchantName⟩ :: ⟨gs "60", p.merchantCity⟩ ::
          (optUnits (gs "61") p.postalCode ++ (adfUnits p ++ (langUnits p ++
            (p.unreservedTemplates.map utUnit ++ p.rfuFields.map doUnit)))))))))

/-- The encoded body of a payload (everything before the CRC field). -/
def encodedBody (p : Payload) : GoStr := concatUnits (topUnits p)

/-- The full encoded wire string of a payload. -/
def fullRaw (p : Payload) : GoStr :=
  encodedBody p ++ gs "6304" ++ crcString (crc16CCITT (encodedBody p ++ gs "6304"))

/-! ### Well-formedness: what the round-trip needs beyond the validator -/

/-- Whether a top-level id is one the decoder recognizes by name or range
(the dispatch conditions of `applyObject`, in order). -/
def isRecognizedTop (id : GoStr) : Bool :=
  id == gs "00" || isMerchantAccountInfo id || id == gs "52" || id == gs "53" ||
  id == gs "54" || id == gs "55" || id == gs "56" || id == gs "57" || id == gs "58" ||
  id == gs "59" || id == gs "60" || id == gs "61" || id == gs "62" || id == gs "63" ||
  id == gs "64" || isUnreservedTemplate id

/-- A codec-safe field value: at most 99 bytes. -/
def wfVal (s : GoStr) : Bool := decide (s.length ≤ 99)

/-- A codec-safe sub-object: 2-character id and a value of at most 99 bytes. -/
def wfSub (d : DataObject) : Bool := d.id.length == 2 && wfVal d.value

/-- A merchant account entry that survives the round trip: a 2-character id in
the recognized range; primitive entries carry no sub-fields, template entries
carry no raw value and codec-safe sub-fields fitting the 99-byte budget. -/
def wfMAI (m : MerchantAccountInfo) : Bool :=
  m.id.length == 2 &&
    (if m.isTemplateID then
      (m.value == []) && m.subFields.all wfSub &&
        wfVal (concatUnits (m.subFields.map doUnit))
     else isMerchantAccountInfo m.id && (m.subFields == List.nil) && wfVal m.value)

/-- The nine named sub-ids of the Additional Data Field. -/
def adfNamedIDs : List GoStr :=
  [gs "01", gs "02", gs "03", gs "04", gs "05", gs "06", gs "07", gs "08", gs "09"]

/-- An Additional Data Field that survives the round trip. -/
def wfADF (a : AdditionalDataField) : Bool :=
  (adfNamedPairs a).all (fun d => wfVal d.value) &&
  a.rfuFields.all (fun d => wfSub d && !(d.value == []) && !(adfNamedIDs.contains d.id)) &&
  wfVal (concatUnits (adfInnerUnits a))

/-- A language template that survives the round trip. -/
def wfLang (l : LanguageTemplate) : Bool :=
  wfVal l.languagePreference && wfVal l.merchantName && wfVal l.merchantCity &&
  l.rfuFields.all (fun d => wfSub d && !([gs "00", gs "01", gs "02"].contains d.id)) &&
  wfVal (concatUnits (langInnerUnits l))

/-- An unreserved template that survives the round trip. -/
def wfUT (ut : UnreservedTemplate) : Bool :=
  ut.id.length == 2 && isUnreservedTemplate ut.id && wfVal ut.globallyUniqueID &&
  ut.subFields.all (fun d => wfSub d && !(d.id == gs "00")) &&
  wfVal (concatUnits (utInnerUnits ut))

/-- Fee values consistent with the tip indicator (what the encoder emits). -/
def wfTip (p : Payload) : Bool :=
  wfVal p.tipOrConvenienceIndicator && wfVal p.valueConvenienceFeeFixed &&
  wfVal p.valueConvenienceFeePercent &&
  (if p.tipOrConvenienceIndicator = gs "02" then p.valueConvenienceFeePercent == []
   else if p.tipOrConvenienceIndicator = gs "03" then p.valueConvenienceFeeFixed == []
   else (p.valueConvenienceFeeFixed == List.nil) && (p.valueConvenienceFeePercent == List.nil))

/-- Wire-well-formedness of a payload: every directly encoded value within the
99-byte codec limit, merchant entries / templates / RFU fields shaped so that
the decoder's dispatch and demultiplexing reproduce them. -/
def wfPayload (p : Payload) : Bool :=
  wfVal p.payloadFormatIndicator && wfVal p.merchantCategoryCode &&
  wfVal p.transactionCurrency && wfVal p.transactionAmount && wfTip p &&
  wfVal p.countryCode && wfVal p.merchantName && wfVal p.merchantCity &&
  wfVal p.postalCode && p.merchantAccountInfos.all wfMAI &&
  (match p.additionalData with | none => true | some a => wfADF a) &&
  (match p.languageTemplate with | none => true | some l => wfLang l) &&
  p.unreservedTemplates.all wfUT &&
  p.rfuFields.all (fun d => wfSub d && !(isRecognizedTop d.id))

/-! ### Spec-side definitions (for the claims phrased from the spec text) -/

/-- Modelled from the spec: the localized-name selection rule, "if a
Language-Template is present, its language tag equals (exact string match)
the caller-requested tag, and the corresponding localized field is non-empty,
return it; otherwise return the default field". -/
def prefNameSpec (p : Payload) (t : GoStr) : GoStr :=
  match p.languageTemplate with
  | some lt =>
    if lt.languagePreference = t ∧ lt.merchantName ≠ [] then lt.merchantName
    else p.merchantName
  | none => p.merchantName

/-- Modelled from the spec: the localized-city selection rule. -/
def prefCitySpec (p : Payload) (t : GoStr) : GoStr :=
  match p.languageTemplate with
  | some lt =>
    if lt.languagePreference = t ∧ lt.merchantCity ≠ [] then lt.merchantCity
    else p.merchantCity
  | none => p.merchantCity

/-- Spec-side: whether one of the validator's required fields is absent. -/
def requiredFieldAbsent (p : Payload) : ReqField → Bool
  | .mcc => p.merchantCategoryCode == List.nil
  | .currency => p.transactionCurrency == List.nil
  | .country => p.countryCode == List.nil
  | .name => p.merchantName == List.nil
  | .city => p.merchantCity == List.nil
  | .mai => p.merchantAccountInfos == List.nil

/-- Spec-side: whether `r` is a missing-required-field error that names a
field actually absent from `p`. -/
def namesMissingField (p : Payload) (r : Res EncErr GoStr) : Bool :=
  match r with
  | .err (.missingRequired f) => requiredFieldAbsent p f
  | _ => false

/-- Spec-side: the disjunction "no merchant-account entry, or one of category
code, currency, country code, merchant name, merchant city is empty". -/
def missingAnyRequired (p : Payload) : Bool :=
  (p.merchantAccountInfos == List.nil) || (p.merchantCategoryCode == List.nil) ||
  (p.transactionCurrency == List.nil) || (p.countryCode == List.nil) ||
  (p.merchantName == List.nil) || (p.merchantCity == List.nil)

/-- Spec-side: a tip/fee indicator set to a value other than 01/02/03. -/
def tipIndicatorInvalid (p : Payload) : Bool :=
  !(p.tipOrConvenienceIndicator == List.nil) &&
  !(p.tipOrConvenienceIndicator == gs "01") &&
  !(p.tipOrConvenienceIndicator == gs "02") &&
  !(p.tipOrConvenienceIndicator == gs "03")

/-- Spec-side: a 4-character string of upper-case hexadecimal digits. -/
def isUpperHex4 (s : GoStr) : Bool :=
  s.length == 4 && s.all (fun b => (48 ≤ b && b ≤ 57) || (65 ≤ b && b ≤ 70))

/-! ### Concrete payloads for counterexamples and witnesses -/

/-- A minimal validator-accepted payload (the repository's base example). -/
def basePayload : Payload :=
  { merchantAccountInfos := [{ id := gs "02", value := gs "4000123456789012" }],
    merchantCategoryCode := gs "5251", transactionCurrency := gs "840",
    countryCode := gs "US", merchantName := gs "ABC Hammers", merchantCity := gs "New York" }

/-- The encoded wire string of `basePayload`. -/
def baseRaw : GoStr :=
  gs "000201021640001234567890125204525153038405802US5911ABC Hammers6008New York63047222"

/-- Validator-accepted payload whose tip indicator is `"01"` (prompt consumer)
while a fixed fee value is also set. -/
def c1Payload : Payload :=
  { basePayload with
    transactionAmount := gs "50"
    tipOrConvenienceIndicator := gs "01"
    valueConvenienceFeeFixed := gs "5" }

/-- The encoded wire string of `c1Payload`. -/
def c1Raw : GoStr :=
  gs "000201021640001234567890125204525153038405402505502015802US5911ABC Hammers6008New York6304F0E1"

/-- A validator-accepted payload whose encoded CRC is `"AD28"`. -/
def c3Payload : Payload := { basePayload with merchantName := gs "Hammers B" }

/-- The encoded wire string of `c3Payload`. -/
def c3Raw : GoStr :=
  gs "000201021640001234567890125204525153038405802US5909Hammers B6008New York6304AD28"

/-- `c3Raw` with the first CRC character lower-cased (a one-character change
among the final 4 characters). -/
def c3RawLower : GoStr :=
  gs "000201021640001234567890125204525153038405802US5909Hammers B6008New York6304aD28"

/-- Payload whose tip indicator is the undefined value "99". -/
def c5WitnessPayload : Payload := { basePayload with tipOrConvenienceIndicator := gs "99" }

/-- Validator-accepted payload with a 100-character merchant name. -/
def c6Payload : Payload := { basePayload with merchantName := List.replicate 100 65 }

/-- Validator-accepted payload whose primitive merchant-account value is 100
characters long. -/
def c6WitnessPayload : Payload :=
  { basePayload with merchantAccountInfos := [{ id := gs "02", value := List.replicate 100 66 }] }

/-- The payload decoded from the Scenario A string. -/
def scenarioAPayload : Payload :=
  { payloadFormatIndicator := gs "01",
    merchantAccountInfos := [{ id := gs "02", value := gs "4000123456789012" }],
    merchantCategoryCode := gs "5251", transactionCurrency := gs "840",
    countryCode := gs "US", merchantName := gs "ABC Hammers", merchantCity := gs "New York",
    crc := gs "7222" }

/-! ## Basic lemmas about the TLV parser -/

theorem parseTLVAux_nil (f : Nat) : parseTLVAux f [] = .ok [] := by
  cases f <;> rfl

theorem parseTLVStep_congr (r₁ r₂ : GoStr → Res DecErr (List TLVObj)) (s : GoStr)
    (h : ∀ t : GoStr, t.length < s.length → r₁ t = r₂ t) :
    parseTLVStep r₁ s = parseTLVStep r₂ s := by
  unfold parseTLVStep
  split
  · rfl
  · split
    · rfl
    · split
      · rfl
      · split
        · rfl
        · rw [h _ (by simp only [List.length_drop]; omega)]

theorem parseTLVAux_mono : ∀ (f g : Nat) (s : GoStr), s.length ≤ f → s.length ≤ g →
    parseTLVAux f s = parseTLVAux g s := by
  intro f
  induction f with
  | zero =>
    intro g s hf _
    cases s with
    | nil => rw [parseTLVAux_nil, parseTLVAux_nil]
    | cons b bs => simp at hf
  | succ f ih =>
    intro g s hf hg
    cases s with
    | nil => rw [parseTLVAux_nil, parseTLVAux_nil]
    | cons b bs =>
      cases g with
      | zero => simp at hg
      | succ g' =>
        simp only [parseTLVAux]
        refine parseTLVStep_congr _ _ _ fun t ht => ih g' t ?_ ?_
        · simp only [List.length_cons] at hf ht
          omega
        · simp only [List.length_cons] at hg ht
          omega

theorem parseTLV_fuel (f : Nat) (s : GoStr) (h : s.length ≤ f) :
    parseTLVAux f s = parseTLV s :=
  parseTLVAux_mono f s.length s h le_rfl

theorem digitVal_digit (k : Nat) (h : k ≤ 9) : digitVal (48 + k) = some k := by
  unfold digitVal
  rw [if_pos (by omega)]
  congr 1
  omega

theorem encLen_length (n : Nat) : (encLen n).length = 2 := rfl

theorem goAtoi_encLen (n : Nat) (h : n ≤ 99) : goAtoi (encLen n) = some (n : Int) := by
  have e1 : digitVal (48 + n / 10) = some (n / 10) := digitVal_digit _ (by omega)
  have e2 : digitVal (48 + n % 10) = some (n % 10) := digitVal_digit _ (by omega)
  simp only [encLen, goAtoi]
  rw [if_neg (by omega), if_neg (by omega)]
  simp only [decDigits, e1, e2, Option.map_some']
  have harith : 10 * (10 * 0 + n / 10) + n % 10 = n := by omega
  rw [harith]
  rfl

theorem concatUnits_nil : concatUnits [] = [] := rfl

theorem concatUnits_cons (u : TLVObj) (us : List TLVObj) :
    concatUnits (u :: us) = unitStr u ++ concatUnits us := by
  simp [concatUnits]

theorem concatUnits_append (xs ys : List TLVObj) :
    concatUnits (xs ++ ys) = concatUnits xs ++ concatUnits ys := by
  simp [concatUnits]

theorem unitStr_length (u : TLVObj) (h : u.id.length = 2) :
    (unitStr u).length = 4 + u.value.length := by
  simp [unitStr, h, encLen_length]
  omega

theorem drop_append_len {α : Type} (l₁ l₂ : List α) (n : Nat) :
    (l₁ ++ l₂).drop (l₁.length + n) = l₂.drop n := by
  induction l₁ with
  | nil => simp
  | cons x xs ih => simpa [Nat.succ_add] using ih

theorem take_append_len {α : Type} (l₁ l₂ : List α) : (l₁ ++ l₂).take l₁.length = l₁ := by
  induction l₁ with
  | nil => simp
  | cons x xs ih => simpa using ih

theorem drop_append_self {α : Type} (l₁ l₂ : List α) : (l₁ ++ l₂).drop l₁.length = l₂ := by
  simpa using drop_append_len l₁ l₂ 0

theorem drop_cons_two {α : Type} (a b : α) (l : List α) (n : Nat) :
    (a :: b :: l).drop (2 + n) = l.drop n := by
  rw [Nat.add_comm]
  rfl

theorem parseTLVAux_concat : ∀ (us : List TLVObj) (fuel : Nat),
    (∀ u ∈ us, wfUnit u) → (concatUnits us).length ≤ fuel →
    parseTLVAux fuel (concatUnits us) = .ok us := by
  intro us
  induction us with
  | nil =>
    intro fuel _ _
    simpa [concatUnits_nil] using parseTLVAux_nil fuel
  | cons u rest ih =>
    intro fuel h hf
    obtain ⟨hid, hval⟩ := h u (by simp)
    obtain ⟨a, b, hab⟩ := List.length_eq_two.mp hid
    have hshape : concatUnits (u :: rest) =
        a :: b :: (encLen u.value.length ++ (u.value ++ concatUnits rest)) := by
      rw [concatUnits_cons, unitStr, hab]
      simp [List.append_assoc]
    rw [hshape] at hf ⊢
    have hlen : (a :: b :: (encLen u.value.length ++ (u.value ++ concatUnits rest))).length =
        4 + u.value.length + (concatUnits rest).length := by
      simp [encLen_length]
      omega
    cases fuel with
    | zero =>
      exfalso
      rw [hlen] at hf
      omega
    | succ f =>
      simp only [parseTLVAux]
      unfold parseTLVStep
      rw [if_neg (by rw [hlen]; omega)]
      have hdrop2 : (a :: b :: (encLen u.value.length ++ (u.value ++ concatUnits rest))).drop 2 =
          encLen u.value.length ++ (u.value ++ concatUnits rest) := rfl
      simp only [hdrop2, List.take_left' (encLen_length u.value.length),
        goAtoi_encLen u.value.length hval]
      rw [if_neg (by rw [hlen]; push_cast; omega)]
      rw [if_neg (by omega)]
      simp only [Int.toNat_ofNat]
      have hdrop4 : (a :: b :: (encLen u.value.length ++ (u.value ++ concatUnits rest))).drop 4 =
          u.value ++ concatUnits rest := by
        have h4 : (4 : Nat) = 2 + 2 := rfl
        rw [h4, drop_cons_two]
        have h2 : (2 : Nat) = (encLen u.value.length).length := (encLen_length _).symm
        rw [h2, drop_append_self]
      have hdropAll : (a :: b :: (encLen u.value.length ++ (u.value ++ concatUnits rest))).drop
          (4 + u.value.length) = concatUnits rest := by
        have h4 : 4 + u.value.length = 2 + (2 + u.value.length) := by omega
        rw [h4, drop_cons_two]
        have h2 : 2 + u.value.length = (encLen u.value.length).length + u.value.length := by
          rw [encLen_length]
        rw [h2, drop_append_len]
        exact drop_append_self u.value (concatUnits rest)
      have hrest : parseTLVAux f (concatUnits rest) = .ok rest := by
        refine ih f (fun v hv => h v (by simp [hv])) ?_
        rw [hlen] at hf
        omega
      have htake2 : (a :: b :: (encLen u.value.length ++ (u.value ++ concatUnits rest))).take 2 =
          u.id := by
        rw [hab]
        rfl
      rw [hdropAll, hrest, hdrop4, take_append_len, htake2]

theorem parseTLV_concat (us : List TLVObj) (h : ∀ u ∈ us, wfUnit u) :
    parseTLV (concatUnits us) = .ok us :=
  parseTLVAux_concat us _ h le_rfl

theorem encodeTLV_wf (u : TLVObj) (h : u.value.length ≤ 99) :
    encodeTLV u.id u.value = some (unitStr u) := by
  unfold encodeTLV unitStr
  rw [if_neg (by omega)]

/-! ## Claim theorems: TLV totality, malformed input, Scenario A, helpers -/

/-- Claim C4: for every string formed by concatenating well-formed TLV units
(2-character id, zero-padded 2-digit decimal length, value of exactly that
many bytes), `parseTLV` succeeds and returns exactly that ordered sequence of
(id, value) pairs, and `encodeTLV` on each returned pair reproduces the
original unit's substring byte-for-byte. -/
theorem tlv_totality_roundtrip (us : List TLVObj) (h : ∀ u ∈ us, wfUnit u) :
    parseTLV (concatUnits us) = .ok us ∧
    ∀ u ∈ us, encodeTLV u.id u.value = some (unitStr u) :=
  ⟨parseTLV_concat us h, fun u hu => encodeTLV_wf u (h u hu).2⟩

theorem tlv_totality_roundtrip_witness :
    (∀ u ∈ ([⟨gs "59", gs "ABC"⟩, ⟨gs "60", []⟩] : List TLVObj), wfUnit u) ∧
    (parseTLV (concatUnits [⟨gs "59", gs "ABC"⟩, ⟨gs "60", []⟩]) =
        .ok [⟨gs "59", gs "ABC"⟩, ⟨gs "60", []⟩] ∧
      ∀ u ∈ ([⟨gs "59", gs "ABC"⟩, ⟨gs "60", []⟩] : List TLVObj),
        encodeTLV u.id u.value = some (unitStr u)) :=
  ⟨by decide, tlv_totality_roundtrip _ (by decide)⟩

/-- Claim C2 (code bug): decoding is claimed never to panic, with a negative
two-character length field yielding a structure error; but `parseTLV "00-1"`
reproduces the Go slice-bounds panic of `s[4 : 4+length]` with `length = -1`,
and `Decode "63046304"` reproduces the slice-bounds panic of
`raw[crcFieldStart+4 : crcFieldStart+8]` when the last occurrence of `"6304"`
is the CRC value itself. -/
theorem decode_malformed_panics :
    parseTLV (gs "00-1") = .panicked ∧
    decode (gs "63046304") = .panicked ∧
    decodeWith true (gs "00-1") = .panicked := by
  refine ⟨by decide, by decide, by decide⟩

/-- Claim C7 (Scenario A): decoding the given string succeeds and yields
merchant name "ABC Hammers", city "New York", currency "840", and exactly one
merchant-account entry, primitive with ID "02" and value "4000123456789012". -/
theorem scenarioA_decode :
    decode baseRaw = .ok scenarioAPayload ∧
    scenarioAPayload.merchantName = gs "ABC Hammers" ∧
    scenarioAPayload.merchantCity = gs "New York" ∧
    scenarioAPayload.transactionCurrency = gs "840" ∧
    scenarioAPayload.merchantAccountInfos =
      [{ id := gs "02", value := gs "4000123456789012", subFields := [] }] := by
  refine ⟨by decide, by decide, by decide, by decide, by decide⟩

/-- Claim C9: `PreferredMerchantName` returns the language template's
localized name exactly when the template is present, its tag equals the
requested tag by exact string comparison, and the localized name is
non-empty; in every other case it returns the default merchant name — and
`PreferredMerchantCity` behaves the same way for the city. -/
theorem preferred_name_city_selection (p : Payload) (t : GoStr) :
    preferredMerchantName p t = prefNameSpec p t ∧
    preferredMerchantCity p t = prefCitySpec p t := by
  unfold preferredMerchantName prefNameSpec preferredMerchantCity prefCitySpec
  cases p.languageTemplate with
  | none => exact ⟨rfl, rfl⟩
  | some lt =>
    constructor
    · by_cases h1 : lt.merchantName = [] <;> by_cases h2 : lt.languagePreference = t <;>
        simp [h1, h2]
    · by_cases h1 : lt.merchantCity = [] <;> by_cases h2 : lt.languagePreference = t <;>
        simp [h1, h2]

/-! ## Claim theorems: the validator (C5) -/

/-- Claim C5: `Encode` returns a missing-required-field error naming the
missing field exactly when the payload has no merchant-account entry or an
empty category code, currency, country code, merchant name, or merchant
city; and a tip/fee indicator set to a value other than "01"/"02"/"03" makes
`Encode` fail with a returned error (no raw string, no panic). -/
theorem validator_requirements (p : Payload) :
    namesMissingField p (encode p) = missingAnyRequired p ∧
    (tipIndicatorInvalid p = true → (encode p).isErr = true) := by
  constructor
  · by_cases h1 : p.merchantCategoryCode = []
    · simp [encode, validatePayload, h1, namesMissingField, requiredFieldAbsent,
        missingAnyRequired]
    by_cases h2 : p.transactionCurrency = []
    · simp [encode, validatePayload, h1, h2, namesMissingField, requiredFieldAbsent,
        missingAnyRequired]
    by_cases h3 : p.countryCode = []
    · simp [encode, validatePayload, h1, h2, h3, namesMissingField, requiredFieldAbsent,
        missingAnyRequired]
    by_cases h4 : p.merchantName = []
    · simp [encode, validatePayload, h1, h2, h3, h4, namesMissingField, requiredFieldAbsent,
        missingAnyRequired]
    by_cases h5 : p.merchantCity = []
    · simp [encode, validatePayload, h1, h2, h3, h4, h5, namesMissingField,
        requiredFieldAbsent, missingAnyRequired]
    by_cases h6 : p.merchantAccountInfos = []
    · simp [encode, validatePayload, h1, h2, h3, h4, h5, h6, namesMissingField,
        requiredFieldAbsent, missingAnyRequired]
    by_cases h7 : p.tipOrConvenienceIndicator = [] ∨ p.tipOrConvenienceIndicator = gs "01" ∨
        p.tipOrConvenienceIndicator = gs "02" ∨ p.tipOrConvenienceIndicator = gs "03"
    · have hv : validatePayload p = none := by
        simp [validatePayload, h1, h2, h3, h4, h5, h6, h7]
      cases hef : encodeFields p <;>
        simp [encode, hv, hef, namesMissingField, missingAnyRequired, h1, h2, h3, h4, h5, h6]
    · have hv : validatePayload p = some .invalidTipIndicator := by
        simp [validatePayload, h1, h2, h3, h4, h5, h6, h7]
      simp [encode, hv, namesMissingField, missingAnyRequired, h1, h2, h3, h4, h5, h6]
  · intro ht
    cases hv : validatePayload p with
    | some e => simp [encode, hv, Res.isErr]
    | none =>
      exfalso
      simp only [tipIndicatorInvalid, Bool.and_eq_true, bne_iff_ne, ne_eq,
        Bool.not_eq_true', beq_eq_false_iff_ne] at ht
      unfold validatePayload at hv
      split_ifs at hv
      all_goals simp_all

theorem validator_requirements_witness :
    namesMissingField c5WitnessPayload (encode c5WitnessPayload) =
      missingAnyRequired c5WitnessPayload ∧
    (encode c5WitnessPayload).isErr = true :=
  ⟨(validator_requirements c5WitnessPayload).1,
   (validator_requirements c5WitnessPayload).2 (by decide)⟩

/-! ## The shape of every successful encode (C10) -/

theorem validatePayload_crc_independent (p : Payload) (c : GoStr) :
    validatePayload { p with crc := c } = validatePayload p := rfl

theorem encodeFields_crc_independent (p : Payload) (c : GoStr) :
    encodeFields { p with crc := c } = encodeFields p := rfl

theorem encode_crc_independent (p : Payload) (c : GoStr) :
    encode { p with crc := c } = encode p := by
  unfold encode
  rw [validatePayload_crc_independent, encodeFields_crc_independent]

theorem encode_ok_shape (p : Payload) (raw : GoStr) (h : encode p = .ok raw) :
    ∃ body, raw = body ++ gs "6304" ++ crcString (crc16CCITT (body ++ gs "6304")) := by
  unfold encode at h
  cases hv : validatePayload p with
  | some e => rw [hv] at h; simp at h
  | none =>
    rw [hv] at h
    cases hef : encodeFields p with
    | ok body =>
      rw [hef] at h
      refine ⟨body, ?_⟩
      cases h
      rfl
    | err c => rw [hef] at h; simp at h
    | panicked => rw [hef] at h; simp at h

theorem crcString_length (v : Nat) : (crcString v).length = 4 := rfl

theorem gs6304_length : (gs "6304").length = 4 := rfl

theorem hexDigit_range (d : Nat) (h : d < 16) :
    ((48 ≤ hexDigit d && hexDigit d ≤ 57) || (65 ≤ hexDigit d && hexDigit d ≤ 70)) = true := by
  unfold hexDigit
  split <;> simp <;> omega

theorem crcString_upperHex (v : Nat) : isUpperHex4 (crcString v) = true := by
  have h1 := hexDigit_range (v / 4096 % 16) (by omega)
  have h2 := hexDigit_range (v / 256 % 16) (by omega)
  have h3 := hexDigit_range (v / 16 % 16) (by omega)
  have h4 := hexDigit_range (v % 16) (by omega)
  unfold isUpperHex4 crcString
  simp only [List.all_cons, List.all_nil, h1, h2, h3, h4, Bool.and_true, Bool.true_and]
  rfl

/-- Claim C10: the stored CRC field never influences the encoder's output,
and every successful output ends with the literal header "6304" followed by
exactly the 4 upper-case hexadecimal digits of the CRC-16/CCITT-FALSE
checksum of every preceding character including the header. -/
theorem encode_crc_determined (p : Payload) (c1 c2 raw : GoStr) :
    encode { p with crc := c1 } = encode { p with crc := c2 } ∧
    (encode p = .ok raw →
      raw = raw.take (raw.length - 8) ++ gs "6304" ++
        crcString (crc16CCITT (raw.take (raw.length - 8) ++ gs "6304")) ∧
      isUpperHex4 (raw.drop (raw.length - 4)) = true) := by
  constructor
  · exact (encode_crc_independent p c1).trans (encode_crc_independent p c2).symm
  · intro h
    obtain ⟨body, hb⟩ := encode_ok_shape p raw h
    subst hb
    have hlen : (body ++ gs "6304" ++ crcString (crc16CCITT (body ++ gs "6304"))).length =
        body.length + 8 := by
      simp [List.length_append, gs6304_length, crcString_length]
    have htake : (body ++ gs "6304" ++ crcString (crc16CCITT (body ++ gs "6304"))).take
        ((body ++ gs "6304" ++ crcString (crc16CCITT (body ++ gs "6304"))).length - 8) =
        body := by
      rw [hlen]
      have h8 : body.length + 8 - 8 = body.length := by omega
      rw [h8, List.append_assoc, take_append_len]
    refine ⟨?_, ?_⟩
    · rw [htake]
    · have hdrop : (body ++ gs "6304" ++ crcString (crc16CCITT (body ++ gs "6304"))).drop
          ((body ++ gs "6304" ++ crcString (crc16CCITT (body ++ gs "6304"))).length - 4) =
          crcString (crc16CCITT (body ++ gs "6304")) := by
        rw [hlen]
        have h4 : body.length + 8 - 4 = (body ++ gs "6304").length + 0 := by
          simp [List.length_append, gs6304_length]
        rw [h4, drop_append_len]
        rfl
      rw [hdrop, crcString_upperHex]

/-! ## The encoder under wire-well-formedness (towards C1) -/

theorem wfVal_le (s : GoStr) (h : wfVal s = true) : s.length ≤ 99 := by
  simpa [wfVal] using h

theorem writeTLV_ok {ε : Type} (id v : GoStr) (h : v.length ≤ 99) :
    writeTLV (ε := ε) id v = .ok (id ++ encLen v.length ++ v) := by
  unfold writeTLV encodeTLV
  rw [if_neg (by omega)]

theorem encodeDataObjects_ok (ds : List DataObject) (h : ∀ d ∈ ds, d.value.length ≤ 99) :
    encodeDataObjects ds = some (concatUnits (ds.map doUnit)) := by
  induction ds with
  | nil => rfl
  | cons d rest ih =>
    have hd : encodeTLV d.id d.value = some (unitStr (doUnit d)) :=
      encodeTLV_wf (doUnit d) (h d (by simp))
    have hr := ih fun x hx => h x (by simp [hx])
    simp only [encodeDataObjects, hd, hr, List.map_cons, concatUnits_cons]

theorem encodeSkipEmpty_ok (ds : List DataObject) (h : ∀ d ∈ ds, d.value.length ≤ 99) :
    encodeSkipEmpty ds = some (concatUnits ((skipEmpty ds).map doUnit)) := by
  induction ds with
  | nil => rfl
  | cons d rest ih =>
    have hr := ih fun x hx => h x (by simp [hx])
    by_cases he : d.value = []
    · have hsk : skipEmpty (d :: rest) = skipEmpty rest := by
        simp [skipEmpty, List.filter_cons, he]
      rw [hsk]
      simpa [encodeSkipEmpty, he] using hr
    · have hsk : skipEmpty (d :: rest) = d :: skipEmpty rest := by
        simp [skipEmpty, List.filter_cons, he]
      have hd : encodeTLV d.id d.value = some (unitStr (doUnit d)) :=
        encodeTLV_wf (doUnit d) (h d (by simp))
      simp only [encodeSkipEmpty, if_neg he, hd, hr, hsk, List.map_cons, concatUnits_cons]

theorem wfSub_spec (d : DataObject) (h : wfSub d = true) :
    d.id.length = 2 ∧ d.value.length ≤ 99 := by
  simpa [wfSub, wfVal] using h

theorem isMAI_spec (id : GoStr) (h : isMerchantAccountInfo id = true) :
    ∃ n : Int, goAtoi id = some n ∧ 2 ≤ n ∧ n ≤ 51 := by
  unfold isMerchantAccountInfo at h
  cases hA : goAtoi id with
  | none => rw [hA] at h; exact absurd h (by simp)
  | some n =>
    rw [hA] at h
    rw [decide_eq_true_eq] at h
    exact ⟨n, rfl, h.1, h.2⟩

theorem isUT_spec (id : GoStr) (h : isUnreservedTemplate id = true) :
    ∃ n : Int, goAtoi id = some n ∧ 80 ≤ n ∧ n ≤ 99 := by
  unfold isUnreservedTemplate at h
  cases hA : goAtoi id with
  | none => rw [hA] at h; exact absurd h (by simp)
  | some n =>
    rw [hA] at h
    rw [decide_eq_true_eq] at h
    exact ⟨n, rfl, h.1, h.2⟩

theorem isTemplateID_spec (m : MerchantAccountInfo) (h : m.isTemplateID = true) :
    ∃ n : Int, goAtoi m.id = some n ∧ 26 ≤ n ∧ n ≤ 51 := by
  unfold MerchantAccountInfo.isTemplateID at h
  cases hA : goAtoi m.id with
  | none => rw [hA] at h; exact absurd h (by simp)
  | some n =>
    rw [hA] at h
    rw [decide_eq_true_eq] at h
    exact ⟨n, rfl, h.1, h.2⟩

theorem encodeMerchantAccountInfo_ok (m : MerchantAccountInfo) (h : wfMAI m = true) :
    encodeMerchantAccountInfo m = some (unitStr (maiUnit m)) := by
  unfold wfMAI at h
  rw [Bool.and_eq_true] at h
  obtain ⟨_, hrest⟩ := h
  cases ht : m.isTemplateID with
  | false =>
    rw [ht, if_neg (by simp)] at hrest
    simp only [Bool.and_eq_true] at hrest
    obtain ⟨⟨_, _⟩, hval⟩ := hrest
    unfold encodeMerchantAccountInfo maiUnit
    rw [ht]
    simp only [Bool.false_eq_true, if_false]
    exact encodeTLV_wf ⟨m.id, m.value⟩ (wfVal_le _ hval)
  | true =>
    rw [ht, if_pos rfl] at hrest
    simp only [Bool.and_eq_true, List.all_eq_true] at hrest
    obtain ⟨⟨_, hall⟩, hinner⟩ := hrest
    unfold encodeMerchantAccountInfo maiUnit
    rw [ht]
    simp only [if_true]
    rw [encodeDataObjects_ok m.subFields fun d hd => (wfSub_spec d (hall d hd)).2]
    exact encodeTLV_wf ⟨m.id, concatUnits (m.subFields.map doUnit)⟩ (wfVal_le _ hinner)

theorem encodeMAIs_ok (ms : List MerchantAccountInfo) (h : ms.all wfMAI = true) :
    encodeMAIs ms = .ok (concatUnits (ms.map maiUnit)) := by
  induction ms with
  | nil => rfl
  | cons m rest ih =>
    rw [List.all_cons, Bool.and_eq_true] at h
    simp only [encodeMAIs, encodeMerchantAccountInfo_ok m h.1, ih h.2, List.map_cons,
      concatUnits_cons]

theorem encodeAdditionalDataField_ok (a : AdditionalDataField) (h : wfADF a = true) :
    encodeAdditionalDataField a = some (unitStr ⟨gs "62", concatUnits (adfInnerUnits a)⟩) := by
  unfold wfADF at h
  simp only [Bool.and_eq_true, List.all_eq_true] at h
  obtain ⟨⟨hnamed, hrfu⟩, hinner⟩ := h
  have hvals : ∀ d ∈ adfNamedPairs a ++ a.rfuFields, d.value.length ≤ 99 := by
    intro d hd
    rcases List.mem_append.mp hd with h1 | h2
    · exact wfVal_le _ (hnamed d h1)
    · have hx := hrfu d h2
      simp only [Bool.and_eq_true] at hx
      exact (wfSub_spec d hx.1.1).2
  unfold encodeAdditionalDataField
  rw [encodeSkipEmpty_ok _ hvals]
  exact encodeTLV_wf ⟨gs "62", concatUnits (adfInnerUnits a)⟩ (wfVal_le _ hinner)

theorem encodeLanguageTemplate_ok (l : LanguageTemplate) (h : wfLang l = true) :
    encodeLanguageTemplate l = some (unitStr ⟨gs "64", concatUnits (langInnerUnits l)⟩) := by
  unfold wfLang at h
  simp only [Bool.and_eq_true, List.all_eq_true] at h
  obtain ⟨⟨⟨⟨hlang, hname⟩, hcity⟩, hrfu⟩, hinner⟩ := h
  have hs := encodeSkipEmpty_ok [⟨gs "00", l.languagePreference⟩, ⟨gs "01", l.merchantName⟩,
      ⟨gs "02", l.merchantCity⟩] (by
    intro d hd
    simp only [List.mem_cons, List.not_mem_nil, or_false] at hd
    rcases hd with rfl | rfl | rfl
    · exact wfVal_le _ hlang
    · exact wfVal_le _ hname
    · exact wfVal_le _ hcity)
  have hd := encodeDataObjects_ok l.rfuFields (by
    intro d hd
    have hx := hrfu d hd
    simp only [Bool.and_eq_true] at hx
    exact (wfSub_spec d hx.1).2)
  have hdist : concatUnits (langInnerUnits l) =
      concatUnits ((skipEmpty [⟨gs "00", l.languagePreference⟩, ⟨gs "01", l.merchantName⟩,
        ⟨gs "02", l.merchantCity⟩]).map doUnit) ++ concatUnits (l.rfuFields.map doUnit) := by
    unfold langInnerUnits
    exact concatUnits_append _ _
  unfold encodeLanguageTemplate
  simp only [hs, hd]
  rw [← hdist]
  exact encodeTLV_wf ⟨gs "64", concatUnits (langInnerUnits l)⟩ (wfVal_le _ hinner)

theorem encodeUnreservedTemplate_ok (ut : UnreservedTemplate) (h : wfUT ut = true) :
    encodeUnreservedTemplate ut = some (unitStr (utUnit ut)) := by
  unfold wfUT at h
  simp only [Bool.and_eq_true, List.all_eq_true] at h
  obtain ⟨⟨⟨⟨_, hisUT⟩, hguid⟩, hsubs⟩, hinner⟩ := h
  obtain ⟨n, hA, h80, h99⟩ := isUT_spec ut.id hisUT
  have hs := encodeSkipEmpty_ok [⟨gs "00", ut.globallyUniqueID⟩] (by
    intro d hd
    simp only [List.mem_cons, List.not_mem_nil, or_false] at hd
    rcases hd with rfl
    exact wfVal_le _ hguid)
  have hd := encodeDataObjects_ok ut.subFields (by
    intro d hd
    have hx := hsubs d hd
    simp only [Bool.and_eq_true] at hx
    exact (wfSub_spec d hx.1).2)
  have hdist : concatUnits (utInnerUnits ut) =
      concatUnits ((skipEmpty [⟨gs "00", ut.globallyUniqueID⟩]).map doUnit) ++
        concatUnits (ut.subFields.map doUnit) := by
    unfold utInnerUnits
    exact concatUnits_append _ _
  unfold encodeUnreservedTemplate
  simp only [hA]
  rw [if_neg (by omega)]
  simp only [hs, hd]
  rw [← hdist]
  exact encodeTLV_wf ⟨ut.id, concatUnits (utInnerUnits ut)⟩ (wfVal_le _ hinner)

theorem encodeUTs_ok (uts : List UnreservedTemplate) (h : uts.all wfUT = true) :
    encodeUTs uts = .ok (concatUnits (uts.map utUnit)) := by
  induction uts with
  | nil => rfl
  | cons ut rest ih =>
    rw [List.all_cons, Bool.and_eq_true] at h
    simp only [encodeUTs, encodeUnreservedTemplate_ok ut h.1, ih h.2, List.map_cons,
      concatUnits_cons]

theorem encodeRFUs_ok {ε : Type} (ds : List DataObject) (h : ∀ d ∈ ds, d.value.length ≤ 99) :
    encodeRFUs (ε := ε) ds = .ok (concatUnits (ds.map doUnit)) := by
  induction ds with
  | nil => rfl
  | cons d rest ih =>
    have hw := writeTLV_ok (ε := ε) d.id d.value (h d (by simp))
    have hr := ih fun x hx => h x (by simp [hx])
    simp only [encodeRFUs, hw, hr, Res.bind, List.map_cons, concatUnits_cons]
    rfl

theorem effectivePFI_le (p : Payload) (h : p.payloadFormatIndicator.length ≤ 99) :
    (effectivePFI p).length ≤ 99 := by
  unfold effectivePFI
  split
  · decide
  · exact h

theorem optChunk_ok {ε : Type} (id v : GoStr) (h : v.length ≤ 99) :
    (if v = [] then (.ok [] : Res ε GoStr) else writeTLV id v) =
      .ok (concatUnits (optUnits id v)) := by
  by_cases he : v = []
  · simp [he, optUnits, concatUnits_nil]
  · rw [if_neg he]
    unfold optUnits
    rw [if_neg he, writeTLV_ok id v h, concatUnits_cons, concatUnits_nil, List.append_nil]
    rfl

theorem tipChunk_ok (p : Payload) (h : wfTip p = true) :
    tipChunk p = .ok (concatUnits (tipUnits p)) := by
  unfold wfTip at h
  simp only [Bool.and_eq_true] at h
  obtain ⟨⟨⟨htip, hfix⟩, hpct⟩, _⟩ := h
  unfold tipChunk tipUnits
  by_cases h0 : p.tipOrConvenienceIndicator = []
  · simp [h0, concatUnits_nil]
  · rw [if_neg h0, if_neg h0]
    rw [writeTLV_ok (gs "55") _ (wfVal_le _ htip)]
    simp only [Res.bind]
    by_cases h2 : p.tipOrConvenienceIndicator = gs "02"
    · rw [if_pos h2, if_pos h2, optChunk_ok (gs "56") _ (wfVal_le _ hfix)]
      simp only [Res.bind, concatUnits_cons]
      rfl
    · rw [if_neg h2, if_neg h2]
      by_cases h3 : p.tipOrConvenienceIndicator = gs "03"
      · rw [if_pos h3, if_pos h3, optChunk_ok (gs "57") _ (wfVal_le _ hpct)]
        simp only [Res.bind, concatUnits_cons]
        rfl
      · rw [if_neg h3, if_neg h3]
        simp only [Res.bind, concatUnits_cons, concatUnits_nil, List.append_nil]
        rfl

theorem adfChunk_ok (p : Payload)
    (h : (match p.additionalData with | none => true | some a => wfADF a) = true) :
    adfChunk p = .ok (concatUnits (adfUnits p)) := by
  unfold adfChunk adfUnits
  cases ha : p.additionalData with
  | none => rfl
  | some a =>
    rw [ha] at h
    simp only [encodeAdditionalDataField_ok a h]
    rw [concatUnits_cons, concatUnits_nil, List.append_nil]

theorem langChunk_ok (p : Payload)
    (h : (match p.languageTemplate with | none => true | some l => wfLang l) = true) :
    langChunk p = .ok (concatUnits (langUnits p)) := by
  unfold langChunk langUnits
  cases hl : p.languageTemplate with
  | none => rfl
  | some l =>
    rw [hl] at h
    simp only [encodeLanguageTemplate_ok l h]
    rw [concatUnits_cons, concatUnits_nil, List.append_nil]

theorem encodeFields_ok (p : Payload) (hwf : wfPayload p = true) :
    encodeFields p = .ok (encodedBody p) := by
  unfold wfPayload at hwf
  simp only [Bool.and_eq_true] at hwf
  obtain ⟨⟨⟨⟨⟨⟨⟨⟨⟨⟨⟨⟨⟨hpfi, hmcc⟩, hcur⟩, hamt⟩, htip⟩, hcc⟩, hname⟩, hcity⟩, hpostal⟩,
    hmais⟩, hadf⟩, hlang⟩, huts⟩, hrfu⟩ := hwf
  have hrfuvals : ∀ d ∈ p.rfuFields, d.value.length ≤ 99 := by
    intro d hd
    rw [List.all_eq_true] at hrfu
    have hx := hrfu d hd
    simp only [Bool.and_eq_true] at hx
    exact (wfSub_spec d hx.1).2
  unfold encodeFields
  rw [writeTLV_ok (gs "00") (effectivePFI p) (effectivePFI_le p (wfVal_le _ hpfi))]
  simp only [Res.bind]
  rw [encodeMAIs_ok _ hmais]
  simp only [Res.bind]
  rw [writeTLV_ok (gs "52") _ (wfVal_le _ hmcc)]
  simp only [Res.bind]
  rw [writeTLV_ok (gs "53") _ (wfVal_le _ hcur)]
  simp only [Res.bind]
  rw [optChunk_ok (gs "54") _ (wfVal_le _ hamt)]
  simp only [Res.bind]
  rw [tipChunk_ok p htip]
  simp only [Res.bind]
  rw [writeTLV_ok (gs "58") _ (wfVal_le _ hcc)]
  simp only [Res.bind]
  rw [writeTLV_ok (gs "59") _ (wfVal_le _ hname)]
  simp only [Res.bind]
  rw [writeTLV_ok (gs "60") _ (wfVal_le _ hcity)]
  simp only [Res.bind]
  rw [optChunk_ok (gs "61") _ (wfVal_le _ hpostal)]
  simp only [Res.bind]
  rw [adfChunk_ok p hadf]
  simp only [Res.bind]
  rw [langChunk_ok p hlang]
  simp only [Res.bind]
  rw [encodeUTs_ok _ huts]
  simp only [Res.bind]
  rw [encodeRFUs_ok _ hrfuvals]
  simp only [Res.bind]
  unfold encodedBody topUnits
  simp only [concatUnits_cons, concatUnits_append, unitStr, List.append_assoc]

theorem gs6304_eq : gs "6304" = [54, 51, 48, 52] := by decide

theorem matchAt_at (body pat tail : GoStr) :
    matchAt (body ++ (pat ++ tail)) pat body.length = true := by
  unfold matchAt
  rw [drop_append_self, take_append_len]
  simp

theorem goLastIndexAux_from (s pat : GoStr) (bl : Nat) (hm : matchAt s pat bl = true) :
    ∀ k, (∀ j, bl < j → j ≤ bl + k → matchAt s pat j = false) →
    goLastIndexAux s pat (bl + k) = some bl := by
  intro k
  induction k with
  | zero =>
    intro _
    rw [Nat.add_zero]
    cases bl with
    | zero => simp [goLastIndexAux, hm]
    | succ n => simp [goLastIndexAux, hm]
  | succ k ih =>
    intro hno
    have hstep : bl + (k + 1) = (bl + k) + 1 := rfl
    rw [hstep]
    have hfalse : matchAt s pat (bl + k + 1) = false := hno (bl + k + 1) (by omega) (by omega)
    simp only [goLastIndexAux, hfalse, Bool.false_eq_true, if_false]
    exact ih fun j h1 h2 => hno j h1 (by omega)

theorem goLastIndex_body (body v : GoStr) (h4 : v.length = 4) (hne : v ≠ gs "6304") :
    goLastIndex (body ++ gs "6304" ++ v) (gs "6304") = some body.length := by
  have hassoc : body ++ gs "6304" ++ v = body ++ (gs "6304" ++ v) :=
    List.append_assoc body (gs "6304") v
  have hlen : (body ++ gs "6304" ++ v).length = body.length + 8 := by
    simp [List.length_append, gs6304_length, h4]
  have hm : matchAt (body ++ gs "6304" ++ v) (gs "6304") body.length = true := by
    rw [hassoc]
    exact matchAt_at body (gs "6304") v
  have hno : ∀ j, body.length < j → j ≤ body.length + 8 →
      matchAt (body ++ gs "6304" ++ v) (gs "6304") j = false := by
    intro j hj1 hj2
    obtain ⟨i, rfl⟩ : ∃ i, j = body.length + i := ⟨j - body.length, by omega⟩
    have hi1 : 1 ≤ i := by omega
    have hi2 : i ≤ 8 := by omega
    unfold matchAt
    rw [hassoc, drop_append_len, gs6304_length]
    rw [gs6304_eq] at hne ⊢
    have hlen2 : ((([54, 51, 48, 52] : GoStr) ++ v).drop i).length = 8 - i := by
      simp [List.length_drop, List.length_append, h4]
    interval_cases i
    · simp [beq_eq_false_iff_ne]
    · simp [beq_eq_false_iff_ne]
    · simp [beq_eq_false_iff_ne]
    · -- i = 4: the dropped suffix is v itself
      have hd : (([54, 51, 48, 52] : GoStr) ++ v).drop 4 = v := rfl
      rw [hd]
      have ht : v.take 4 = v := by
        rw [← h4]
        simp
      rw [ht, beq_eq_false_iff_ne]
      exact hne
    all_goals
      (rw [beq_eq_false_iff_ne]
       intro hcontra
       have hlc := congrArg List.length hcontra
       simp [List.length_take, hlen2, h4] at hlc)
  have := goLastIndexAux_from (body ++ gs "6304" ++ v) (gs "6304") body.length hm 8 hno
  unfold goLastIndex
  rw [hlen]
  exact this

theorem validateCRC_append (body v : GoStr) (h4 : v.length = 4) (hne : v ≠ gs "6304") :
    validateCRC (body ++ gs "6304" ++ v) =
      (if eqFold v (crcString (crc16CCITT (body ++ gs "6304"))) then .ok () else
        .err .crcMismatch) := by
  have hlen : (body ++ gs "6304" ++ v).length = body.length + 8 := by
    simp [List.length_append, gs6304_length, h4]
  have hdropv : (body ++ gs "6304" ++ v).drop (body.length + 4) = v := by
    have ha : body ++ gs "6304" ++ v = body ++ (gs "6304" ++ v) :=
      List.append_assoc body (gs "6304") v
    rw [ha, drop_append_len, gs6304_eq]
    rfl
  have htakev : v.take 4 = v := by
    rw [← h4]
    simp
  have hdatap : (body ++ gs "6304" ++ v).take (body.length + 4) = body ++ gs "6304" := by
    have he : body.length + 4 = (body ++ gs "6304").length := by
      simp [List.length_append, gs6304_length]
    rw [he, take_append_len]
  unfold validateCRC
  rw [if_neg (show ¬((body ++ gs "6304" ++ v).length < 8) from by rw [hlen]; omega)]
  simp only [goLastIndex_body body v h4 hne]
  rw [if_neg (show ¬((body ++ gs "6304" ++ v).length < body.length + 8) from by
    rw [hlen]; omega)]
  rw [hdropv, htakev, hdatap]

/-! ## Claim C3: checksum sensitivity -/

/-- Claim C3 counterexample: `c3RawLower` is obtained from the encoded
`c3Raw` by replacing exactly one of its final 4 characters (position
length−4, byte 65 = 'A') with the different character 97 = 'a'; decoding it
with CRC checking enabled then succeeds (the comparison is case-insensitive),
rather than failing with a checksum-mismatch error. -/
theorem checksum_case_counterexample :
    validatePayload c3Payload = none ∧
    encode c3Payload = .ok c3Raw ∧
    c3RawLower = c3Raw.set (c3Raw.length - 4) 97 ∧
    c3Raw.get? (c3Raw.length - 4) = some 65 ∧
    (decodeWith false c3RawLower).isOk = true := by
  refine ⟨by decide, by decide, by decide, by decide, by decide⟩

/-- Claim C3 amended: replacing the final 4 characters of an encoded payload
by a 4-character string that is not a case-insensitive match of the original
CRC and is not the literal `"6304"` makes decode (with CRC checking enabled)
fail with a checksum-mismatch error. -/
theorem checksum_sensitivity_amended (p : Payload) (raw v : GoStr)
    (henc : encode p = .ok raw) (h4 : v.length = 4) (hne : v ≠ gs "6304")
    (hfold : eqFold v (raw.drop (raw.length - 4)) = false) :
    decodeWith false (raw.take (raw.length - 4) ++ v) = .err .crcMismatch := by
  obtain ⟨body, hb⟩ := encode_ok_shape p raw henc
  subst hb
  have hlen : (body ++ gs "6304" ++ crcString (crc16CCITT (body ++ gs "6304"))).length =
      body.length + 8 := by
    simp [List.length_append, gs6304_length, crcString_length]
  have htake : (body ++ gs "6304" ++ crcString (crc16CCITT (body ++ gs "6304"))).take
      ((body ++ gs "6304" ++ crcString (crc16CCITT (body ++ gs "6304"))).length - 4) =
      body ++ gs "6304" := by
    rw [hlen]
    have he : body.length + 8 - 4 = (body ++ gs "6304").length := by
      simp [List.length_append, gs6304_length]
    rw [he, take_append_len]
  have hdrop : (body ++ gs "6304" ++ crcString (crc16CCITT (body ++ gs "6304"))).drop
      ((body ++ gs "6304" ++ crcString (crc16CCITT (body ++ gs "6304"))).length - 4) =
      crcString (crc16CCITT (body ++ gs "6304")) := by
    rw [hlen]
    have he : body.length + 8 - 4 = (body ++ gs "6304").length + 0 := by
      simp [List.length_append, gs6304_length]
    rw [he, drop_append_len]
    rfl
  rw [htake]
  rw [hdrop] at hfold
  have hv := validateCRC_append body v h4 hne
  rw [hfold] at hv
  simp only [Bool.false_eq_true, if_false] at hv
  have hlenv : (body ++ gs "6304" ++ v).length = body.length + 8 := by
    simp [List.length_append, gs6304_length, h4]
  unfold decodeWith
  rw [if_neg (show ¬((body ++ gs "6304" ++ v).length < 4) from by rw [hlenv]; omega)]
  rw [List.append_assoc body (gs "6304") v] at hv
  simp [hv]

theorem checksum_sensitivity_amended_witness :
    decodeWith false (baseRaw.take (baseRaw.length - 4) ++ gs "0000") = .err .crcMismatch :=
  checksum_sensitivity_amended basePayload baseRaw (gs "0000") (by decide) (by decide)
    (by decide) (by decide)

/-! ## Claim C1 counterexample: the unconditional round trip fails -/

/-- Claim C1 counterexample: `c1Payload` is accepted by the validator, but
its tip indicator is "01" while a fixed fee value "5" is also set; the
encoder only emits the fixed fee when the indicator is "02", so the decode of
the encode returns an empty fixed fee, not the original "5". -/
theorem roundtrip_counterexample :
    validatePayload c1Payload = none ∧
    encode c1Payload = .ok c1Raw ∧
    Res.map (fun q => q.valueConvenienceFeeFixed) (decodeWith false c1Raw) = .ok [] ∧
    c1Payload.valueConvenienceFeeFixed = gs "5" := by
  refine ⟨by decide, by decide, by decide, by decide⟩

/-! ## Claim C6: over-limit values on encode -/

/-- Claim C6 counterexample: a validator-accepted payload with a
100-character merchant name makes `Encode` hit the `mustEncodeTLV` panic in
`write` instead of returning a range/format error. -/
theorem encode_over99_counterexample :
    validatePayload c6Payload = none ∧
    c6Payload.merchantName.length = 100 ∧
    encode c6Payload = .panicked := by
  refine ⟨by decide, by decide, by decide⟩

theorem encodeMAIs_err (ms : List MerchantAccountInfo) (m : MerchantAccountInfo)
    (hm : m ∈ ms) (hfail : encodeMerchantAccountInfo m = none) :
    ∃ e, encodeMAIs ms = .err e := by
  induction ms with
  | nil => cases hm
  | cons m0 rest ih =>
    rcases List.mem_cons.mp hm with rfl | hmem
    · exact ⟨.mai m.id, by simp [encodeMAIs, hfail]⟩
    · cases hc : encodeMerchantAccountInfo m0 with
      | none => exact ⟨.mai m0.id, by simp [encodeMAIs, hc]⟩
      | some c =>
        obtain ⟨e, he⟩ := ih hmem
        exact ⟨e, by simp [encodeMAIs, hc, he]⟩

/-- Claim C6 amended: for a validator-accepted payload whose payload-format
indicator fits the codec limit, an over-99-byte primitive merchant-account
value makes `Encode` abort with a returned error (no partial raw string and
no panic); over-99-byte values in directly written fields such as the
merchant name instead panic (see the counterexample). -/
theorem encode_over99_amended (p : Payload) (m : MerchantAccountInfo)
    (hv : validatePayload p = none) (hpfi : p.payloadFormatIndicator.length ≤ 99)
    (hm : m ∈ p.merchantAccountInfos) (hprim : m.isTemplateID = false)
    (hlong : 99 < m.value.length) :
    (encode p).isErr = true := by
  have hfail : encodeMerchantAccountInfo m = none := by
    unfold encodeMerchantAccountInfo encodeTLV
    simp [hprim, hlong]
  obtain ⟨e, he⟩ := encodeMAIs_err _ m hm hfail
  have hep : (effectivePFI p).length ≤ 99 := by
    unfold effectivePFI
    split
    · decide
    · exact hpfi
  have hw := writeTLV_ok (ε := ChunkErr) (gs "00") (effectivePFI p) hep
  have hfields : encodeFields p = .err e := by
    unfold encodeFields
    rw [hw]
    simp only [Res.bind]
    rw [he]
  simp [encode, hv, hfields, Res.isErr]

theorem encode_over99_amended_witness : (encode c6WitnessPayload).isErr = true :=
  encode_over99_amended c6WitnessPayload
    { id := gs "02", value := List.replicate 100 66, subFields := [] }
    (by decide) (by decide) (by decide) (by decide) (by decide)

theorem encode_crc_determined_witness :
    encode { basePayload with crc := gs "AAAA" } = encode { basePayload with crc := gs "0000" } ∧
    (baseRaw = baseRaw.take (baseRaw.length - 8) ++ gs "6304" ++
        crcString (crc16CCITT (baseRaw.take (baseRaw.length - 8) ++ gs "6304")) ∧
      isUpperHex4 (baseRaw.drop (baseRaw.length - 4)) = true) :=
  ⟨(encode_crc_determined basePayload (gs "AAAA") (gs "0000") baseRaw).1,
   (encode_crc_determined basePayload (gs "AAAA") (gs "0000") baseRaw).2 (by decide)⟩


/-! ## The decoder under wire-well-formedness (towards C1) -/

theorem applyObjects_cons_ok (acc acc' : Payload) (u : TLVObj) (us : List TLVObj)
    (h : applyObject acc u = .ok acc') :
    applyObjects acc (u :: us) = applyObjects acc' us := by
  simp [applyObjects, h]

theorem applyObject_00 (acc : Payload) (v : GoStr) :
    applyObject acc ⟨gs "00", v⟩ = .ok { acc with payloadFormatIndicator := v } := rfl

theorem applyObject_52 (acc : Payload) (v : GoStr) :
    applyObject acc ⟨gs "52", v⟩ = .ok { acc with merchantCategoryCode := v } := rfl

theorem applyObject_53 (acc : Payload) (v : GoStr) :
    applyObject acc ⟨gs "53", v⟩ = .ok { acc with transactionCurrency := v } := rfl

theorem applyObject_54 (acc : Payload) (v : GoStr) :
    applyObject acc ⟨gs "54", v⟩ = .ok { acc with transactionAmount := v } := rfl

theorem applyObject_55 (acc : Payload) (v : GoStr) :
    applyObject acc ⟨gs "55", v⟩ = .ok { acc with tipOrConvenienceIndicator := v } := rfl

theorem applyObject_56 (acc : Payload) (v : GoStr) :
    applyObject acc ⟨gs "56", v⟩ = .ok { acc with valueConvenienceFeeFixed := v } := rfl

theorem applyObject_57 (acc : Payload) (v : GoStr) :
    applyObject acc ⟨gs "57", v⟩ = .ok { acc with valueConvenienceFeePercent := v } := rfl

theorem applyObject_58 (acc : Payload) (v : GoStr) :
    applyObject acc ⟨gs "58", v⟩ = .ok { acc with countryCode := v } := rfl

theorem applyObject_59 (acc : Payload) (v : GoStr) :
    applyObject acc ⟨gs "59", v⟩ = .ok { acc with merchantName := v } := rfl

theorem applyObject_60 (acc : Payload) (v : GoStr) :
    applyObject acc ⟨gs "60", v⟩ = .ok { acc with merchantCity := v } := rfl

theorem applyObject_61 (acc : Payload) (v : GoStr) :
    applyObject acc ⟨gs "61", v⟩ = .ok { acc with postalCode := v } := rfl

theorem applyObject_63 (acc : Payload) (v : GoStr) :
    applyObject acc ⟨gs "63", v⟩ = .ok { acc with crc := v.map upperByte } := rfl

theorem isMAI_ne_00 (id : GoStr) (h : isMerchantAccountInfo id = true) : id ≠ gs "00" := by
  intro he
  rw [he] at h
  exact absurd h (by decide)

theorem isUT_ne_00 (id : GoStr) (h : isUnreservedTemplate id = true) : id ≠ gs "00" := by
  intro he
  rw [he] at h
  exact absurd h (by decide)

theorem isUT_ne (id c : GoStr) (h : isUnreservedTemplate id = true)
    (hc : isUnreservedTemplate c = false) : id ≠ c := by
  intro he
  rw [he, hc] at h
  exact Bool.false_ne_true h

theorem isUT_not_isMAI (id : GoStr) (h : isUnreservedTemplate id = true) :
    isMerchantAccountInfo id = false := by
  obtain ⟨n, ha, h1, h2⟩ := isUT_spec id h
  unfold isMerchantAccountInfo
  rw [ha, decide_eq_false_iff_not]
  omega

theorem wfMAI_isMAI (m : MerchantAccountInfo) (h : wfMAI m = true) :
    isMerchantAccountInfo m.id = true := by
  unfold wfMAI at h
  rw [Bool.and_eq_true] at h
  obtain ⟨hlen, hrest⟩ := h
  cases ht : m.isTemplateID with
  | true =>
    obtain ⟨n, ha, h1, h2⟩ := isTemplateID_spec m ht
    unfold isMerchantAccountInfo
    rw [ha, decide_eq_true_eq]
    omega
  | false =>
    rw [ht, if_neg (by simp)] at hrest
    simp only [Bool.and_eq_true] at hrest
    exact hrest.1.1

theorem map_doUnit_eta (l : List DataObject) :
    (l.map doUnit).map (fun s => (⟨s.id, s.value⟩ : DataObject)) = l := by
  induction l with
  | nil => rfl
  | cons d rest ih => simp only [List.map_cons, ih, doUnit]

theorem maiUnit_id (m : MerchantAccountInfo) : (maiUnit m).id = m.id := by
  unfold maiUnit
  split <;> rfl

theorem decodeMAI_ok (m : MerchantAccountInfo) (h : wfMAI m = true) :
    decodeMerchantAccountInfo m.id (maiUnit m).value = .ok m := by
  unfold wfMAI at h
  rw [Bool.and_eq_true] at h
  obtain ⟨hlen, hrest⟩ := h
  cases ht : m.isTemplateID with
  | true =>
    rw [ht, if_pos rfl] at hrest
    simp only [Bool.and_eq_true, List.all_eq_true] at hrest
    obtain ⟨⟨hval, hall⟩, hinner⟩ := hrest
    obtain ⟨n, ha, h1, h2⟩ := isTemplateID_spec m ht
    have hsubwf : ∀ u ∈ m.subFields.map doUnit, wfUnit u := by
      intro u hu
      rw [List.mem_map] at hu
      obtain ⟨d, hd, rfl⟩ := hu
      exact ⟨(wfSub_spec d (hall d hd)).1, (wfSub_spec d (hall d hd)).2⟩
    have hmu : (maiUnit m).value = concatUnits (m.subFields.map doUnit) := by
      unfold maiUnit
      rw [ht]
      rfl
    rw [hmu]
    unfold decodeMerchantAccountInfo
    rw [ha]
    simp only [Option.getD_some]
    rw [if_pos ⟨h1, h2⟩, parseTLV_concat _ hsubwf]
    simp only [map_doUnit_eta]
    have hv : m.value = [] := by
      rw [beq_iff_eq] at hval
      exact hval
    obtain ⟨mid, mval, msub⟩ := m
    simp only at hv
    rw [hv]
  | false =>
    rw [ht, if_neg (by simp)] at hrest
    simp only [Bool.and_eq_true] at hrest
    obtain ⟨⟨hmai, hsub⟩, hval⟩ := hrest
    obtain ⟨n, ha, h1, h2⟩ := isMAI_spec m.id hmai
    have hnot : ¬(26 ≤ n ∧ n ≤ 51) := by
      intro hcon
      have hfalse : m.isTemplateID = true := by
        unfold MerchantAccountInfo.isTemplateID
        rw [ha, decide_eq_true_eq]
        exact hcon
      rw [ht] at hfalse
      exact Bool.false_ne_true hfalse
    have hmu : (maiUnit m).value = m.value := by
      unfold maiUnit
      rw [ht]
      rfl
    rw [hmu]
    unfold decodeMerchantAccountInfo
    rw [ha]
    simp only [Option.getD_some]
    rw [if_neg hnot]
    have hs : m.subFields = [] := by
      rw [beq_iff_eq] at hsub
      exact hsub
    obtain ⟨mid, mval, msub⟩ := m
    simp only at hs
    rw [hs]

theorem applyObject_mai (acc : Payload) (m : MerchantAccountInfo) (h : wfMAI m = true) :
    applyObject acc (maiUnit m) =
      .ok { acc with merchantAccountInfos := acc.merchantAccountInfos ++ [m] } := by
  have hmai := wfMAI_isMAI m h
  have h00 : (maiUnit m).id ≠ gs "00" := by
    rw [maiUnit_id]
    exact isMAI_ne_00 m.id hmai
  have hmai' : isMerchantAccountInfo (maiUnit m).id = true := by
    rw [maiUnit_id]
    exact hmai
  unfold applyObject
  rw [if_neg h00, if_pos hmai', maiUnit_id, decodeMAI_ok m h]

theorem applyObjects_mais (ms : List MerchantAccountInfo) :
    ∀ (acc : Payload) (rest : List TLVObj), ms.all wfMAI = true →
    applyObjects acc (ms.map maiUnit ++ rest) =
      applyObjects { acc with merchantAccountInfos := acc.merchantAccountInfos ++ ms } rest := by
  induction ms with
  | nil =>
    intro acc rest _
    obtain ⟨a1, a2, a3, a4, a5, a6, a7, a8, a9, a10, a11, a12, a13, a14, a15, a16, a17⟩ := acc
    simp
  | cons m tail ih =>
    intro acc rest h
    rw [List.all_cons, Bool.and_eq_true] at h
    rw [List.map_cons, List.cons_append,
        applyObjects_cons_ok _ _ _ _ (applyObject_mai acc m h.1), ih _ _ h.2]
    congr 1
    obtain ⟨a1, a2, a3, a4, a5, a6, a7, a8, a9, a10, a11, a12, a13, a14, a15, a16, a17⟩ := acc
    simp

theorem applyObjects_opt54 (acc : Payload) (v : GoStr) (rest : List TLVObj)
    (h : acc.transactionAmount = []) :
    applyObjects acc (optUnits (gs "54") v ++ rest) =
      applyObjects { acc with transactionAmount := v } rest := by
  by_cases hv : v = []
  · subst hv
    unfold optUnits
    rw [if_pos rfl, List.nil_append]
    congr 1
    obtain ⟨a1, a2, a3, a4, a5, a6, a7, a8, a9, a10, a11, a12, a13, a14, a15, a16, a17⟩ := acc
    simp_all
  · unfold optUnits
    rw [if_neg hv, List.cons_append, List.nil_append,
        applyObjects_cons_ok _ _ _ _ (applyObject_54 acc v)]

theorem applyObjects_opt61 (acc : Payload) (v : GoStr) (rest : List TLVObj)
    (h : acc.postalCode = []) :
    applyObjects acc (optUnits (gs "61") v ++ rest) =
      applyObjects { acc with postalCode := v } rest := by
  by_cases hv : v = []
  · subst hv
    unfold optUnits
    rw [if_pos rfl, List.nil_append]
    congr 1
    obtain ⟨a1, a2, a3, a4, a5, a6, a7, a8, a9, a10, a11, a12, a13, a14, a15, a16, a17⟩ := acc
    simp_all
  · unfold optUnits
    rw [if_neg hv, List.cons_append, List.nil_append,
        applyObjects_cons_ok _ _ _ _ (applyObject_61 acc v)]

theorem applyObjects_tip (p acc : Payload) (rest : List TLVObj)
    (hwf : wfTip p = true)
    (h1 : acc.tipOrConvenienceIndicator = []) (h2 : acc.valueConvenienceFeeFixed = [])
    (h3 : acc.valueConvenienceFeePercent = []) :
    applyObjects acc (tipUnits p ++ rest) =
      applyObjects { acc with
        tipOrConvenienceIndicator := p.tipOrConvenienceIndicator
        valueConvenienceFeeFixed := p.valueConvenienceFeeFixed
        valueConvenienceFeePercent := p.valueConvenienceFeePercent } rest := by
  unfold wfTip at hwf
  simp only [Bool.and_eq_true] at hwf
  obtain ⟨⟨⟨hv1, hv2⟩, hv3⟩, hcond⟩ := hwf
  by_cases hti : p.tipOrConvenienceIndicator = []
  · rw [hti, if_neg (by decide), if_neg (by decide), Bool.and_eq_true, beq_iff_eq,
        beq_iff_eq] at hcond
    have htu : tipUnits p = [] := by
      unfold tipUnits
      rw [if_pos hti]
    rw [htu, List.nil_append]
    congr 1
    obtain ⟨a1, a2, a3, a4, a5, a6, a7, a8, a9, a10, a11, a12, a13, a14, a15, a16, a17⟩ := acc
    simp_all
  · by_cases hti02 : p.tipOrConvenienceIndicator = gs "02"
    · rw [hti02, if_pos rfl, beq_iff_eq] at hcond
      have htu : tipUnits p = ⟨gs "55", gs "02"⟩ ::
          optUnits (gs "56") p.valueConvenienceFeeFixed := by
        unfold tipUnits
        rw [hti02, if_neg (by decide), if_pos rfl]
      rw [htu, List.cons_append, applyObjects_cons_ok _ _ _ _ (applyObject_55 acc (gs "02"))]
      by_cases hfix : p.valueConvenienceFeeFixed = []
      · rw [hfix]
        unfold optUnits
        rw [if_pos rfl, List.nil_append]
        congr 1
        obtain ⟨a1, a2, a3, a4, a5, a6, a7, a8, a9, a10, a11, a12, a13, a14, a15, a16, a17⟩ := acc
        simp_all
      · unfold optUnits
        rw [if_neg hfix, List.cons_append, List.nil_append,
            applyObjects_cons_ok _ _ _ _ (applyObject_56 _ p.valueConvenienceFeeFixed)]
        congr 1
        obtain ⟨a1, a2, a3, a4, a5, a6, a7, a8, a9, a10, a11, a12, a13, a14, a15, a16, a17⟩ := acc
        simp_all
    · by_cases hti03 : p.tipOrConvenienceIndicator = gs "03"
      · rw [hti03, if_neg (by decide), if_pos rfl, beq_iff_eq] at hcond
        have htu : tipUnits p = ⟨gs "55", gs "03"⟩ ::
            optUnits (gs "57") p.valueConvenienceFeePercent := by
          unfold tipUnits
          rw [hti03, if_neg (by decide), if_neg (by decide), if_pos rfl]
        rw [htu, List.cons_append, applyObjects_cons_ok _ _ _ _ (applyObject_55 acc (gs "03"))]
        by_cases hpct : p.valueConvenienceFeePercent = []
        · rw [hpct]
          unfold optUnits
          rw [if_pos rfl, List.nil_append]
          congr 1
          obtain ⟨a1, a2, a3, a4, a5, a6, a7, a8, a9, a10, a11, a12, a13, a14, a15, a16,
            a17⟩ := acc
          simp_all
        · unfold optUnits
          rw [if_neg hpct, List.cons_append, List.nil_append,
              applyObjects_cons_ok _ _ _ _ (applyObject_57 _ p.valueConvenienceFeePercent)]
          congr 1
          obtain ⟨a1, a2, a3, a4, a5, a6, a7, a8, a9, a10, a11, a12, a13, a14, a15, a16,
            a17⟩ := acc
          simp_all
      · rw [if_neg hti02, if_neg hti03, Bool.and_eq_true, beq_iff_eq, beq_iff_eq] at hcond
        have htu : tipUnits p = [⟨gs "55", p.tipOrConvenienceIndicator⟩] := by
          unfold tipUnits
          rw [if_neg hti, if_neg hti02, if_neg hti03]
        rw [htu, List.cons_append, List.nil_append,
            applyObjects_cons_ok _ _ _ _ (applyObject_55 acc p.tipOrConvenienceIndicator)]
        congr 1
        obtain ⟨a1, a2, a3, a4, a5, a6, a7, a8, a9, a10, a11, a12, a13, a14, a15, a16, a17⟩ := acc
        simp_all

theorem skipEmpty_cons (d : DataObject) (ds : List DataObject) :
    skipEmpty (d :: ds) = if d.value = [] then skipEmpty ds else d :: skipEmpty ds := by
  by_cases h : d.value = [] <;> simp [skipEmpty, List.filter_cons, h]

theorem skipEmpty_all (ds : List DataObject) (h : ∀ d ∈ ds, d.value ≠ []) :
    skipEmpty ds = ds := by
  unfold skipEmpty
  rw [List.filter_eq_self]
  intro d hd
  simp [h d hd]

theorem foldl_adf_opt (idc v : GoStr) (ds : List DataObject) (acc : AdditionalDataField)
    (hskip : adfApply acc ⟨idc, []⟩ = acc) :
    List.foldl adfApply acc ((skipEmpty (⟨idc, v⟩ :: ds)).map doUnit) =
    List.foldl adfApply (adfApply acc ⟨idc, v⟩) ((skipEmpty ds).map doUnit) := by
  rw [skipEmpty_cons]
  by_cases hv : v = []
  · subst hv
    rw [if_pos rfl, hskip]
  · rw [if_neg hv, List.map_cons, List.foldl_cons]
    rfl

theorem adf_named_fold (b1 b2 b3 b4 b5 b6 b7 b8 b9 : GoStr) :
    List.foldl adfApply {}
      ((skipEmpty [⟨gs "01", b1⟩, ⟨gs "02", b2⟩, ⟨gs "03", b3⟩, ⟨gs "04", b4⟩, ⟨gs "05", b5⟩,
        ⟨gs "06", b6⟩, ⟨gs "07", b7⟩, ⟨gs "08", b8⟩, ⟨gs "09", b9⟩]).map doUnit) =
      ⟨b1, b2, b3, b4, b5, b6, b7, b8, b9, []⟩ := by
  refine (foldl_adf_opt (gs "01") b1 _ {} rfl).trans ?_
  refine (foldl_adf_opt (gs "02") b2 _ _ rfl).trans ?_
  refine (foldl_adf_opt (gs "03") b3 _ _ rfl).trans ?_
  refine (foldl_adf_opt (gs "04") b4 _ _ rfl).trans ?_
  refine (foldl_adf_opt (gs "05") b5 _ _ rfl).trans ?_
  refine (foldl_adf_opt (gs "06") b6 _ _ rfl).trans ?_
  refine (foldl_adf_opt (gs "07") b7 _ _ rfl).trans ?_
  refine (foldl_adf_opt (gs "08") b8 _ _ rfl).trans ?_
  refine (foldl_adf_opt (gs "09") b9 _ _ rfl).trans ?_
  rfl

theorem adfFold_rfu (ds : List DataObject) :
    ∀ acc : AdditionalDataField, (∀ d ∈ ds, (adfNamedIDs.contains d.id) = false) →
    List.foldl adfApply acc (ds.map doUnit) =
      { acc with rfuFields := acc.rfuFields ++ ds } := by
  induction ds with
  | nil =>
    intro acc _
    obtain ⟨b1, b2, b3, b4, b5, b6, b7, b8, b9, rf⟩ := acc
    simp
  | cons d rest ih =>
    intro acc h
    have hd := h d (by simp)
    simp only [adfNamedIDs, List.contains_cons, List.contains_nil, Bool.or_eq_false_iff,
      beq_eq_false_iff_ne, ne_eq] at hd
    obtain ⟨hd1, hd2, hd3, hd4, hd5, hd6, hd7, hd8, hd9, -⟩ := hd
    have hstep : adfApply acc (doUnit d) = { acc with rfuFields := acc.rfuFields ++ [d] } := by
      unfold adfApply doUnit
      rw [if_neg hd1, if_neg hd2, if_neg hd3, if_neg hd4, if_neg hd5, if_neg hd6,
          if_neg hd7, if_neg hd8, if_neg hd9]
    rw [List.map_cons, List.foldl_cons, hstep, ih _ (fun x hx => h x (by simp [hx]))]
    obtain ⟨b1, b2, b3, b4, b5, b6, b7, b8, b9, rf⟩ := acc
    simp

theorem decodeADF_ok (a : AdditionalDataField) (h : wfADF a = true) :
    decodeAdditionalDataField (concatUnits (adfInnerUnits a)) = .ok a := by
  unfold wfADF at h
  simp only [Bool.and_eq_true, List.all_eq_true] at h
  obtain ⟨⟨hnamed, hrfu⟩, hinner⟩ := h
  have hrfune : ∀ d ∈ a.rfuFields, d.value ≠ [] := by
    intro d hd
    have hx := hrfu d hd
    simp only [Bool.and_eq_true, Bool.not_eq_eq_eq_not, Bool.not_true,
      beq_eq_false_iff_ne, ne_eq] at hx
    exact hx.1.2
  have hunits : ∀ u ∈ adfInnerUnits a, wfUnit u := by
    intro u hu
    unfold adfInnerUnits at hu
    rw [List.mem_map] at hu
    obtain ⟨d, hd, rfl⟩ := hu
    unfold skipEmpty at hd
    have hd' := List.mem_of_mem_filter hd
    rw [List.mem_append] at hd'
    rcases hd' with hnd | hrd
    · have hv := hnamed d hnd
      simp only [adfNamedPairs, List.mem_cons, List.not_mem_nil, or_false] at hnd
      rcases hnd with rfl | rfl | rfl | rfl | rfl | rfl | rfl | rfl | rfl
      all_goals exact ⟨rfl, wfVal_le _ hv⟩
    · have hx := hrfu d hrd
      simp only [Bool.and_eq_true] at hx
      exact ⟨(wfSub_spec d hx.1.1).1, (wfSub_spec d hx.1.1).2⟩
  unfold decodeAdditionalDataField
  rw [parseTLV_concat _ hunits]
  show Res.ok ((adfInnerUnits a).foldl adfApply {}) = Res.ok a
  have hsplit : adfInnerUnits a =
      ((skipEmpty (adfNamedPairs a)).map doUnit) ++ (a.rfuFields.map doUnit) := by
    unfold adfInnerUnits skipEmpty
    rw [List.filter_append, List.map_append]
    have hr : List.filter (fun d => !(d.value == [])) a.rfuFields = a.rfuFields :=
      List.filter_eq_self.mpr (fun d hd => by simp [hrfune d hd])
    rw [hr]
  rw [hsplit, List.foldl_append]
  have hcontains : ∀ d ∈ a.rfuFields, (adfNamedIDs.contains d.id) = false := by
    intro d hd
    have hx := hrfu d hd
    simp only [Bool.and_eq_true, Bool.not_eq_eq_eq_not, Bool.not_true] at hx
    exact hx.2
  obtain ⟨b1, b2, b3, b4, b5, b6, b7, b8, b9, rf⟩ := a
  simp only [adfNamedPairs]
  rw [adf_named_fold, adfFold_rfu rf ⟨b1, b2, b3, b4, b5, b6, b7, b8, b9, []⟩ hcontains]
  rfl

theorem applyObject_62 (acc : Payload) (v : GoStr) :
    applyObject acc ⟨gs "62", v⟩ =
      match decodeAdditionalDataField v with
      | .ok a => .ok { acc with additionalData := some a }
      | .err _ => .err (.parseErr (gs "62"))
      | .panicked => .panicked := rfl

theorem applyObjects_adf (p acc : Payload) (rest : List TLVObj)
    (hwf : (match p.additionalData with | none => true | some a => wfADF a) = true)
    (hacc : acc.additionalData = none) :
    applyObjects acc (adfUnits p ++ rest) =
      applyObjects { acc with additionalData := p.additionalData } rest := by
  cases hA : p.additionalData with
  | none =>
    simp only [adfUnits, hA, List.nil_append]
    congr 1
    obtain ⟨a1, a2, a3, a4, a5, a6, a7, a8, a9, a10, a11, a12, a13, a14, a15, a16, a17⟩ := acc
    simp_all
  | some a =>
    rw [hA] at hwf
    simp only [adfUnits, hA, List.cons_append, List.nil_append]
    have hobj : applyObject acc ⟨gs "62", concatUnits (adfInnerUnits a)⟩ =
        .ok { acc with additionalData := some a } := by
      rw [applyObject_62, decodeADF_ok a hwf]
    rw [applyObjects_cons_ok _ _ _ _ hobj]

theorem foldl_lang_opt (idc v : GoStr) (ds : List DataObject) (acc : LanguageTemplate)
    (hskip : langApply acc ⟨idc, []⟩ = acc) :
    List.foldl langApply acc ((skipEmpty (⟨idc, v⟩ :: ds)).map doUnit) =
    List.foldl langApply (langApply acc ⟨idc, v⟩) ((skipEmpty ds).map doUnit) := by
  rw [skipEmpty_cons]
  by_cases hv : v = []
  · subst hv
    rw [if_pos rfl, hskip]
  · rw [if_neg hv, List.map_cons, List.foldl_cons]
    rfl

theorem lang_named_fold (v0 v1 v2 : GoStr) :
    List.foldl langApply {}
      ((skipEmpty [⟨gs "00", v0⟩, ⟨gs "01", v1⟩, ⟨gs "02", v2⟩]).map doUnit) =
      ⟨v0, v1, v2, []⟩ := by
  refine (foldl_lang_opt (gs "00") v0 _ {} rfl).trans ?_
  refine (foldl_lang_opt (gs "01") v1 _ _ rfl).trans ?_
  refine (foldl_lang_opt (gs "02") v2 _ _ rfl).trans ?_
  rfl

theorem langFold_rfu (ds : List DataObject) :
    ∀ acc : LanguageTemplate,
    (∀ d ∈ ds, (([gs "00", gs "01", gs "02"] : List GoStr).contains d.id) = false) →
    List.foldl langApply acc (ds.map doUnit) =
      { acc with rfuFields := acc.rfuFields ++ ds } := by
  induction ds with
  | nil =>
    intro acc _
    obtain ⟨v0, v1, v2, rf⟩ := acc
    simp
  | cons d rest ih =>
    intro acc h
    have hd := h d (by simp)
    simp only [List.contains_cons, List.contains_nil, Bool.or_eq_false_iff,
      beq_eq_false_iff_ne, ne_eq] at hd
    obtain ⟨hd0, hd1, hd2, -⟩ := hd
    have hstep : langApply acc (doUnit d) = { acc with rfuFields := acc.rfuFields ++ [d] } := by
      unfold langApply doUnit
      rw [if_neg hd0, if_neg hd1, if_neg hd2]
    rw [List.map_cons, List.foldl_cons, hstep, ih _ (fun x hx => h x (by simp [hx]))]
    obtain ⟨v0, v1, v2, rf⟩ := acc
    simp

theorem decodeLang_ok (l : LanguageTemplate) (h : wfLang l = true) :
    decodeLanguageTemplate (concatUnits (langInnerUnits l)) = .ok l := by
  unfold wfLang at h
  simp only [Bool.and_eq_true, List.all_eq_true] at h
  obtain ⟨⟨⟨⟨hlp, hname⟩, hcity⟩, hrfu⟩, hinner⟩ := h
  have hunits : ∀ u ∈ langInnerUnits l, wfUnit u := by
    intro u hu
    unfold langInnerUnits at hu
    rw [List.mem_append] at hu
    rcases hu with hn | hr
    · rw [List.mem_map] at hn
      obtain ⟨d, hd, rfl⟩ := hn
      unfold skipEmpty at hd
      have hd' := List.mem_of_mem_filter hd
      simp only [List.mem_cons, List.not_mem_nil, or_false] at hd'
      rcases hd' with rfl | rfl | rfl
      · exact ⟨rfl, wfVal_le _ hlp⟩
      · exact ⟨rfl, wfVal_le _ hname⟩
      · exact ⟨rfl, wfVal_le _ hcity⟩
    · rw [List.mem_map] at hr
      obtain ⟨d, hd, rfl⟩ := hr
      have hx := hrfu d hd
      simp only [Bool.and_eq_true] at hx
      exact ⟨(wfSub_spec d hx.1).1, (wfSub_spec d hx.1).2⟩
  have hcontains : ∀ d ∈ l.rfuFields,
      (([gs "00", gs "01", gs "02"] : List GoStr).contains d.id) = false := by
    intro d hd
    have hx := hrfu d hd
    simp only [Bool.and_eq_true, Bool.not_eq_eq_eq_not, Bool.not_true] at hx
    exact hx.2
  unfold decodeLanguageTemplate
  rw [parseTLV_concat _ hunits]
  show Res.ok ((langInnerUnits l).foldl langApply {}) = Res.ok l
  obtain ⟨v0, v1, v2, rf⟩ := l
  unfold langInnerUnits
  rw [List.foldl_append]
  rw [lang_named_fold, langFold_rfu rf ⟨v0, v1, v2, []⟩ hcontains]
  rfl

theorem applyObject_64 (acc : Payload) (v : GoStr) :
    applyObject acc ⟨gs "64", v⟩ =
      match decodeLanguageTemplate v with
      | .ok l => .ok { acc with languageTemplate := some l }
      | .err _ => .err (.parseErr (gs "64"))
      | .panicked => .panicked := rfl

theorem applyObjects_lang (p acc : Payload) (rest : List TLVObj)
    (hwf : (match p.languageTemplate with | none => true | some l => wfLang l) = true)
    (hacc : acc.languageTemplate = none) :
    applyObjects acc (langUnits p ++ rest) =
      applyObjects { acc with languageTemplate := p.languageTemplate } rest := by
  cases hL : p.languageTemplate with
  | none =>
    simp only [langUnits, hL, List.nil_append]
    congr 1
    obtain ⟨a1, a2, a3, a4, a5, a6, a7, a8, a9, a10, a11, a12, a13, a14, a15, a16, a17⟩ := acc
    simp_all
  | some l =>
    rw [hL] at hwf
    simp only [langUnits, hL, List.cons_append, List.nil_append]
    have hobj : applyObject acc ⟨gs "64", concatUnits (langInnerUnits l)⟩ =
        .ok { acc with languageTemplate := some l } := by
      rw [applyObject_64, decodeLang_ok l hwf]
    rw [applyObjects_cons_ok _ _ _ _ hobj]

theorem utFold_sub (ds : List DataObject) :
    ∀ acc : UnreservedTemplate, (∀ d ∈ ds, d.id ≠ gs "00") →
    List.foldl utApply acc (ds.map doUnit) =
      { acc with subFields := acc.subFields ++ ds } := by
  induction ds with
  | nil =>
    intro acc _
    obtain ⟨i, g, s⟩ := acc
    simp
  | cons d rest ih =>
    intro acc h
    have hstep : utApply acc (doUnit d) = { acc with subFields := acc.subFields ++ [d] } := by
      unfold utApply doUnit
      rw [if_neg (h d (by simp))]
    rw [List.map_cons, List.foldl_cons, hstep, ih _ (fun x hx => h x (by simp [hx]))]
    obtain ⟨i, g, s⟩ := acc
    simp

theorem decodeUT_ok (ut : UnreservedTemplate) (h : wfUT ut = true) :
    decodeUnreservedTemplate ut.id (concatUnits (utInnerUnits ut)) = .ok ut := by
  unfold wfUT at h
  simp only [Bool.and_eq_true, List.all_eq_true] at h
  obtain ⟨⟨⟨⟨hlen, hisut⟩, hg⟩, hall⟩, hc⟩ := h
  have hids : ∀ d ∈ ut.subFields, d.id ≠ gs "00" := by
    intro d hd
    have hx := hall d hd
    simp only [Bool.and_eq_true, Bool.not_eq_eq_eq_not, Bool.not_true,
      beq_eq_false_iff_ne, ne_eq] at hx
    exact hx.2
  have hunits : ∀ u ∈ utInnerUnits ut, wfUnit u := by
    intro u hu
    unfold utInnerUnits at hu
    rw [List.mem_append] at hu
    rcases hu with hn | hr
    · rw [List.mem_map] at hn
      obtain ⟨d, hd, rfl⟩ := hn
      unfold skipEmpty at hd
      have hd' := List.mem_of_mem_filter hd
      simp only [List.mem_cons, List.not_mem_nil, or_false] at hd'
      rcases hd' with rfl
      exact ⟨rfl, wfVal_le _ hg⟩
    · rw [List.mem_map] at hr
      obtain ⟨d, hd, rfl⟩ := hr
      have hx := hall d hd
      simp only [Bool.and_eq_true] at hx
      exact ⟨(wfSub_spec d hx.1).1, (wfSub_spec d hx.1).2⟩
  unfold decodeUnreservedTemplate
  rw [parseTLV_concat _ hunits]
  show Res.ok ((utInnerUnits ut).foldl utApply ⟨ut.id, [], []⟩) = Res.ok ut
  obtain ⟨uid, g, subs⟩ := ut
  have hids' : ∀ d ∈ subs, d.id ≠ gs "00" := hids
  unfold utInnerUnits
  rw [List.foldl_append]
  by_cases hg0 : g = []
  · subst hg0
    rw [skipEmpty_cons, if_pos rfl]
    show Res.ok (List.foldl utApply ⟨uid, [], []⟩ (subs.map doUnit)) = _
    rw [utFold_sub subs ⟨uid, [], []⟩ hids']
    rfl
  · rw [skipEmpty_cons, if_neg hg0]
    show Res.ok (List.foldl utApply (utApply ⟨uid, [], []⟩ ⟨gs "00", g⟩) (subs.map doUnit)) = _
    have hga : utApply ⟨uid, [], []⟩ ⟨gs "00", g⟩ = ⟨uid, g, []⟩ := rfl
    rw [hga, utFold_sub subs ⟨uid, g, []⟩ hids']
    rfl

theorem utUnit_eq (ut : UnreservedTemplate) :
    utUnit ut = ⟨ut.id, concatUnits (utInnerUnits ut)⟩ := rfl

theorem applyObject_ut (acc : Payload) (ut : UnreservedTemplate) (h : wfUT ut = true) :
    applyObject acc (utUnit ut) =
      .ok { acc with unreservedTemplates := acc.unreservedTemplates ++ [ut] } := by
  have hisut : isUnreservedTemplate ut.id = true := by
    unfold wfUT at h
    simp only [Bool.and_eq_true] at h
    exact h.1.1.1.2
  rw [utUnit_eq]
  unfold applyObject
  rw [if_neg (isUT_ne_00 _ hisut),
      if_neg (show ¬(isMerchantAccountInfo ut.id = true) from by
        rw [isUT_not_isMAI _ hisut]; exact Bool.false_ne_true),
      if_neg (isUT_ne _ _ hisut (by decide)), if_neg (isUT_ne _ _ hisut (by decide)),
      if_neg (isUT_ne _ _ hisut (by decide)), if_neg (isUT_ne _ _ hisut (by decide)),
      if_neg (isUT_ne _ _ hisut (by decide)), if_neg (isUT_ne _ _ hisut (by decide)),
      if_neg (isUT_ne _ _ hisut (by decide)), if_neg (isUT_ne _ _ hisut (by decide)),
      if_neg (isUT_ne _ _ hisut (by decide)), if_neg (isUT_ne _ _ hisut (by decide)),
      if_neg (isUT_ne _ _ hisut (by decide)), if_neg (isUT_ne _ _ hisut (by decide)),
      if_neg (isUT_ne _ _ hisut (by decide)),
      if_pos hisut, decodeUT_ok ut h]

theorem applyObjects_uts (uts : List UnreservedTemplate) :
    ∀ (acc : Payload) (rest : List TLVObj), uts.all wfUT = true →
    applyObjects acc (uts.map utUnit ++ rest) =
      applyObjects { acc with unreservedTemplates := acc.unreservedTemplates ++ uts } rest := by
  induction uts with
  | nil =>
    intro acc rest _
    obtain ⟨a1, a2, a3, a4, a5, a6, a7, a8, a9, a10, a11, a12, a13, a14, a15, a16, a17⟩ := acc
    simp
  | cons u tail ih =>
    intro acc rest h
    rw [List.all_cons, Bool.and_eq_true] at h
    rw [List.map_cons, List.cons_append,
        applyObjects_cons_ok _ _ _ _ (applyObject_ut acc u h.1), ih _ _ h.2]
    congr 1
    obtain ⟨a1, a2, a3, a4, a5, a6, a7, a8, a9, a10, a11, a12, a13, a14, a15, a16, a17⟩ := acc
    simp

theorem applyObject_rfu (acc : Payload) (d : DataObject) (h : isRecognizedTop d.id = false) :
    applyObject acc (doUnit d) = .ok { acc with rfuFields := acc.rfuFields ++ [d] } := by
  unfold isRecognizedTop at h
  simp only [Bool.or_eq_false_iff, beq_eq_false_iff_ne, ne_eq] at h
  obtain ⟨⟨⟨⟨⟨⟨⟨⟨⟨⟨⟨⟨⟨⟨⟨h00, hmai⟩, h52⟩, h53⟩, h54⟩, h55⟩, h56⟩, h57⟩, h58⟩, h59⟩,
    h60⟩, h61⟩, h62⟩, h63⟩, h64⟩, hut⟩ := h
  have hu : doUnit d = (⟨d.id, d.value⟩ : TLVObj) := rfl
  rw [hu]
  unfold applyObject
  rw [if_neg h00,
      if_neg (show ¬(isMerchantAccountInfo d.id = true) from by
        rw [hmai]; exact Bool.false_ne_true),
      if_neg h52, if_neg h53, if_neg h54, if_neg h55, if_neg h56, if_neg h57, if_neg h58,
      if_neg h59, if_neg h60, if_neg h61, if_neg h62, if_neg h63, if_neg h64,
      if_neg (show ¬(isUnreservedTemplate d.id = true) from by
        rw [hut]; exact Bool.false_ne_true)]

theorem applyObjects_rfus (ds : List DataObject) :
    ∀ (acc : Payload) (rest : List TLVObj),
    (∀ d ∈ ds, isRecognizedTop d.id = false) →
    applyObjects acc (ds.map doUnit ++ rest) =
      applyObjects { acc with rfuFields := acc.rfuFields ++ ds } rest := by
  induction ds with
  | nil =>
    intro acc rest _
    obtain ⟨a1, a2, a3, a4, a5, a6, a7, a8, a9, a10, a11, a12, a13, a14, a15, a16, a17⟩ := acc
    simp
  | cons d tail ih =>
    intro acc rest h
    rw [List.map_cons, List.cons_append,
        applyObjects_cons_ok _ _ _ _ (applyObject_rfu acc d (h d (by simp))),
        ih _ _ (fun x hx => h x (by simp [hx]))]
    congr 1
    obtain ⟨a1, a2, a3, a4, a5, a6, a7, a8, a9, a10, a11, a12, a13, a14, a15, a16, a17⟩ := acc
    simp

theorem upperByte_lt (b : Nat) (h : b < 97) : upperByte b = b := by
  unfold upperByte
  rw [if_neg (by omega)]

theorem hexDigit_lt (d : Nat) (h : d < 16) : hexDigit d < 97 := by
  unfold hexDigit
  split <;> omega

theorem crcString_map_upper (v : Nat) : (crcString v).map upperByte = crcString v := by
  unfold crcString
  simp only [List.map_cons, List.map_nil]
  rw [upperByte_lt _ (hexDigit_lt _ (by omega)), upperByte_lt _ (hexDigit_lt _ (by omega)),
      upperByte_lt _ (hexDigit_lt _ (by omega)), upperByte_lt _ (hexDigit_lt _ (by omega))]

theorem eqFold_refl (s : GoStr) : eqFold s s = true := by
  simp [eqFold]

theorem optUnits_mem (idc v : GoStr) (u : TLVObj) (hu : u ∈ optUnits idc v) :
    u = ⟨idc, v⟩ := by
  unfold optUnits at hu
  split at hu
  · cases hu
  · simpa using hu

theorem tipUnits_mem (p : Payload) (u : TLVObj) (hu : u ∈ tipUnits p) :
    u = ⟨gs "55", p.tipOrConvenienceIndicator⟩ ∨
    u = ⟨gs "56", p.valueConvenienceFeeFixed⟩ ∨
    u = ⟨gs "57", p.valueConvenienceFeePercent⟩ := by
  unfold tipUnits at hu
  split at hu
  · cases hu
  · rw [List.mem_cons] at hu
    rcases hu with rfl | hu
    · exact Or.inl rfl
    · split at hu
      · exact Or.inr (Or.inl (optUnits_mem _ _ _ hu))
      · split at hu
        · exact Or.inr (Or.inr (optUnits_mem _ _ _ hu))
        · cases hu

theorem adfUnits_mem (p : Payload) (u : TLVObj) (hu : u ∈ adfUnits p) :
    ∃ a, p.additionalData = some a ∧ u = ⟨gs "62", concatUnits (adfInnerUnits a)⟩ := by
  cases hA : p.additionalData with
  | none =>
    unfold adfUnits at hu
    rw [hA] at hu
    simp at hu
  | some a =>
    unfold adfUnits at hu
    rw [hA] at hu
    simp only [List.mem_cons, List.not_mem_nil, or_false] at hu
    exact ⟨a, rfl, hu⟩

theorem langUnits_mem (p : Payload) (u : TLVObj) (hu : u ∈ langUnits p) :
    ∃ l, p.languageTemplate = some l ∧ u = ⟨gs "64", concatUnits (langInnerUnits l)⟩ := by
  cases hL : p.languageTemplate with
  | none =>
    unfold langUnits at hu
    rw [hL] at hu
    simp at hu
  | some l =>
    unfold langUnits at hu
    rw [hL] at hu
    simp only [List.mem_cons, List.not_mem_nil, or_false] at hu
    exact ⟨l, rfl, hu⟩

theorem maiUnit_wf (m : MerchantAccountInfo) (h : wfMAI m = true) : wfUnit (maiUnit m) := by
  unfold wfMAI at h
  simp only [Bool.and_eq_true] at h
  obtain ⟨hlen, hrest⟩ := h
  constructor
  · rw [maiUnit_id]
    simpa using hlen
  · cases ht : m.isTemplateID with
    | true =>
      rw [ht, if_pos rfl] at hrest
      simp only [Bool.and_eq_true] at hrest
      have hmu : (maiUnit m).value = concatUnits (m.subFields.map doUnit) := by
        unfold maiUnit
        rw [ht]
        rfl
      rw [hmu]
      exact wfVal_le _ hrest.2
    | false =>
      rw [ht, if_neg (by simp)] at hrest
      simp only [Bool.and_eq_true] at hrest
      have hmu : (maiUnit m).value = m.value := by
        unfold maiUnit
        rw [ht]
        rfl
      rw [hmu]
      exact wfVal_le _ hrest.2

theorem utUnit_wf (ut : UnreservedTemplate) (h : wfUT ut = true) : wfUnit (utUnit ut) := by
  unfold wfUT at h
  simp only [Bool.and_eq_true] at h
  obtain ⟨⟨⟨⟨hlen, hisut⟩, hg⟩, hall⟩, hc⟩ := h
  exact ⟨by simpa using hlen, wfVal_le _ hc⟩

theorem topUnits_wf (p : Payload) (hwf : wfPayload p = true) :
    ∀ u ∈ topUnits p, wfUnit u := by
  unfold wfPayload at hwf
  simp only [Bool.and_eq_true, List.all_eq_true] at hwf
  obtain ⟨⟨⟨⟨⟨⟨⟨⟨⟨⟨⟨⟨⟨hpfi, hmcc⟩, hcur⟩, hamt⟩, htip⟩, hcc⟩, hname⟩, hcity⟩, hpostal⟩,
    hmais⟩, hadf⟩, hlang⟩, huts⟩, hrfu⟩ := hwf
  have htip' : wfVal p.tipOrConvenienceIndicator = true ∧
      wfVal p.valueConvenienceFeeFixed = true ∧
      wfVal p.valueConvenienceFeePercent = true := by
    unfold wfTip at htip
    simp only [Bool.and_eq_true] at htip
    exact ⟨htip.1.1.1, htip.1.1.2, htip.1.2⟩
  intro u hu
  simp only [topUnits, List.mem_cons, List.mem_append, List.mem_map] at hu
  rcases hu with rfl | ⟨m, hm, rfl⟩ | rfl | rfl | h54 | htp | rfl | rfl | rfl | h61 |
    hadfu | hlangu | ⟨t, ht, rfl⟩ | ⟨d, hd, rfl⟩
  · exact ⟨rfl, effectivePFI_le p (wfVal_le _ hpfi)⟩
  · exact maiUnit_wf m (hmais m hm)
  · exact ⟨rfl, wfVal_le _ hmcc⟩
  · exact ⟨rfl, wfVal_le _ hcur⟩
  · rw [optUnits_mem _ _ _ h54]
    exact ⟨rfl, wfVal_le _ hamt⟩
  · rcases tipUnits_mem p u htp with rfl | rfl | rfl
    · exact ⟨rfl, wfVal_le _ htip'.1⟩
    · exact ⟨rfl, wfVal_le _ htip'.2.1⟩
    · exact ⟨rfl, wfVal_le _ htip'.2.2⟩
  · exact ⟨rfl, wfVal_le _ hcc⟩
  · exact ⟨rfl, wfVal_le _ hname⟩
  · exact ⟨rfl, wfVal_le _ hcity⟩
  · rw [optUnits_mem _ _ _ h61]
    exact ⟨rfl, wfVal_le _ hpostal⟩
  · obtain ⟨a, hA, rfl⟩ := adfUnits_mem p u hadfu
    rw [hA] at hadf
    unfold wfADF at hadf
    simp only [Bool.and_eq_true] at hadf
    exact ⟨rfl, wfVal_le _ hadf.2⟩
  · obtain ⟨l, hL, rfl⟩ := langUnits_mem p u hlangu
    rw [hL] at hlang
    unfold wfLang at hlang
    simp only [Bool.and_eq_true] at hlang
    exact ⟨rfl, wfVal_le _ hlang.2⟩
  · exact utUnit_wf t (huts t ht)
  · have hx := hrfu d hd
    simp only [Bool.and_eq_true] at hx
    exact ⟨(wfSub_spec d hx.1).1, (wfSub_spec d hx.1).2⟩


theorem applyObjects_maisF (ms : List MerchantAccountInfo) (acc acc' : Payload)
    (rest : List TLVObj) (h : ms.all wfMAI = true)
    (hacc : { acc with merchantAccountInfos := acc.merchantAccountInfos ++ ms } = acc') :
    applyObjects acc (ms.map maiUnit ++ rest) = applyObjects acc' rest := by
  rw [applyObjects_mais _ _ _ h, hacc]

theorem applyObjects_opt54F (acc acc' : Payload) (v : GoStr) (rest : List TLVObj)
    (h : acc.transactionAmount = [])
    (hacc : { acc with transactionAmount := v } = acc') :
    applyObjects acc (optUnits (gs "54") v ++ rest) = applyObjects acc' rest := by
  rw [applyObjects_opt54 _ _ _ h, hacc]

theorem applyObjects_opt61F (acc acc' : Payload) (v : GoStr) (rest : List TLVObj)
    (h : acc.postalCode = [])
    (hacc : { acc with postalCode := v } = acc') :
    applyObjects acc (optUnits (gs "61") v ++ rest) = applyObjects acc' rest := by
  rw [applyObjects_opt61 _ _ _ h, hacc]

theorem applyObjects_tipF (p acc acc' : Payload) (rest : List TLVObj)
    (hwf : wfTip p = true)
    (h1 : acc.tipOrConvenienceIndicator = []) (h2 : acc.valueConvenienceFeeFixed = [])
    (h3 : acc.valueConvenienceFeePercent = [])
    (hacc : { acc with
      tipOrConvenienceIndicator := p.tipOrConvenienceIndicator
      valueConvenienceFeeFixed := p.valueConvenienceFeeFixed
      valueConvenienceFeePercent := p.valueConvenienceFeePercent } = acc') :
    applyObjects acc (tipUnits p ++ rest) = applyObjects acc' rest := by
  rw [applyObjects_tip p _ _ hwf h1 h2 h3, hacc]

theorem applyObjects_adfF (p acc acc' : Payload) (rest : List TLVObj)
    (hwf : (match p.additionalData with | none => true | some a => wfADF a) = true)
    (h0 : acc.additionalData = none)
    (hacc : { acc with additionalData := p.additionalData } = acc') :
    applyObjects acc (adfUnits p ++ rest) = applyObjects acc' rest := by
  rw [applyObjects_adf p _ _ hwf h0, hacc]

theorem applyObjects_langF (p acc acc' : Payload) (rest : List TLVObj)
    (hwf : (match p.languageTemplate with | none => true | some l => wfLang l) = true)
    (h0 : acc.languageTemplate = none)
    (hacc : { acc with languageTemplate := p.languageTemplate } = acc') :
    applyObjects acc (langUnits p ++ rest) = applyObjects acc' rest := by
  rw [applyObjects_lang p _ _ hwf h0, hacc]

theorem applyObjects_utsF (uts : List UnreservedTemplate) (acc acc' : Payload)
    (rest : List TLVObj) (h : uts.all wfUT = true)
    (hacc : { acc with unreservedTemplates := acc.unreservedTemplates ++ uts } = acc') :
    applyObjects acc (uts.map utUnit ++ rest) = applyObjects acc' rest := by
  rw [applyObjects_uts _ _ _ h, hacc]

theorem applyObjects_rfusF (ds : List DataObject) (acc acc' : Payload)
    (rest : List TLVObj) (h : ∀ d ∈ ds, isRecognizedTop d.id = false)
    (hacc : { acc with rfuFields := acc.rfuFields ++ ds } = acc') :
    applyObjects acc (ds.map doUnit ++ rest) = applyObjects acc' rest := by
  rw [applyObjects_rfus _ _ _ h, hacc]

theorem applyObjects_topUnits (p : Payload) (c : Nat) (hwf : wfPayload p = true) :
    applyObjects {} (topUnits p ++ [⟨gs "63", crcString c⟩]) =
      .ok { p with
        payloadFormatIndicator := effectivePFI p
        crc := crcString c } := by
  unfold wfPayload at hwf
  simp only [Bool.and_eq_true, List.all_eq_true] at hwf
  obtain ⟨⟨⟨⟨⟨⟨⟨⟨⟨⟨⟨⟨⟨hpfi, hmcc⟩, hcur⟩, hamt⟩, htip⟩, hcc⟩, hname⟩, hcity⟩, hpostal⟩,
    hmais⟩, hadf⟩, hlang⟩, huts⟩, hrfu⟩ := hwf
  have hmais' : p.merchantAccountInfos.all wfMAI = true := by
    rw [List.all_eq_true]
    exact hmais
  have huts' : p.unreservedTemplates.all wfUT = true := by
    rw [List.all_eq_true]
    exact huts
  have hrfu' : ∀ d ∈ p.rfuFields, isRecognizedTop d.id = false := by
    intro d hd
    have hx := hrfu d hd
    simp only [Bool.and_eq_true, Bool.not_eq_eq_eq_not, Bool.not_true] at hx
    exact hx.2
  simp only [topUnits, List.cons_append, List.append_assoc]
  refine (applyObjects_cons_ok _
    { payloadFormatIndicator := effectivePFI p } _ _ (applyObject_00 _ _)).trans ?_
  refine (applyObjects_maisF p.merchantAccountInfos _
    { payloadFormatIndicator := effectivePFI p
      merchantAccountInfos := p.merchantAccountInfos } _ hmais' rfl).trans ?_
  refine (applyObjects_cons_ok _
    { payloadFormatIndicator := effectivePFI p
      merchantAccountInfos := p.merchantAccountInfos
      merchantCategoryCode := p.merchantCategoryCode } _ _ (applyObject_52 _ _)).trans ?_
  refine (applyObjects_cons_ok _
    { payloadFormatIndicator := effectivePFI p
      merchantAccountInfos := p.merchantAccountInfos
      merchantCategoryCode := p.merchantCategoryCode
      transactionCurrency := p.transactionCurrency } _ _ (applyObject_53 _ _)).trans ?_
  refine (applyObjects_opt54F
    { payloadFormatIndicator := effectivePFI p
      merchantAccountInfos := p.merchantAccountInfos
      merchantCategoryCode := p.merchantCategoryCode
      transactionCurrency := p.transactionCurrency }
    { payloadFormatIndicator := effectivePFI p
      merchantAccountInfos := p.merchantAccountInfos
      merchantCategoryCode := p.merchantCategoryCode
      transactionCurrency := p.transactionCurrency
      transactionAmount := p.transactionAmount } _ _ rfl rfl).trans ?_
  refine (applyObjects_tipF p
    { payloadFormatIndicator := effectivePFI p
      merchantAccountInfos := p.merchantAccountInfos
      merchantCategoryCode := p.merchantCategoryCode
      transactionCurrency := p.transactionCurrency
      transactionAmount := p.transactionAmount }
    { payloadFormatIndicator := effectivePFI p
      merchantAccountInfos := p.merchantAccountInfos
      merchantCategoryCode := p.merchantCategoryCode
      transactionCurrency := p.transactionCurrency
      transactionAmount := p.transactionAmount
      tipOrConvenienceIndicator := p.tipOrConvenienceIndicator
      valueConvenienceFeeFixed := p.valueConvenienceFeeFixed
      valueConvenienceFeePercent := p.valueConvenienceFeePercent }
    _ htip rfl rfl rfl rfl).trans ?_
  refine (applyObjects_cons_ok _
    { payloadFormatIndicator := effectivePFI p
      merchantAccountInfos := p.merchantAccountInfos
      merchantCategoryCode := p.merchantCategoryCode
      transactionCurrency := p.transactionCurrency
      transactionAmount := p.transactionAmount
      tipOrConvenienceIndicator := p.tipOrConvenienceIndicator
      valueConvenienceFeeFixed := p.valueConvenienceFeeFixed
      valueConvenienceFeePercent := p.valueConvenienceFeePercent
      countryCode := p.countryCode } _ _ (applyObject_58 _ _)).trans ?_
  refine (applyObjects_cons_ok _
    { payloadFormatIndicator := effectivePFI p
      merchantAccountInfos := p.merchantAccountInfos
      merchantCategoryCode := p.merchantCategoryCode
      transactionCurrency := p.transactionCurrency
      transactionAmount := p.transactionAmount
      tipOrConvenienceIndicator := p.tipOrConvenienceIndicator
      valueConvenienceFeeFixed := p.valueConvenienceFeeFixed
      valueConvenienceFeePercent := p.valueConvenienceFeePercent
      countryCode := p.countryCode
      merchantName := p.merchantName } _ _ (applyObject_59 _ _)).trans ?_
  refine (applyObjects_cons_ok _
    { payloadFormatIndicator := effectivePFI p
      merchantAccountInfos := p.merchantAccountInfos
      merchantCategoryCode := p.merchantCategoryCode
      transactionCurrency := p.transactionCurrency
      transactionAmount := p.transactionAmount
      tipOrConvenienceIndicator := p.tipOrConvenienceIndicator
      valueConvenienceFeeFixed := p.valueConvenienceFeeFixed
      valueConvenienceFeePercent := p.valueConvenienceFeePercent
      countryCode := p.countryCode
      merchantName := p.merchantName
      merchantCity := p.merchantCity } _ _ (applyObject_60 _ _)).trans ?_
  refine (applyObjects_opt61F
    { payloadFormatIndicator := effectivePFI p
      merchantAccountInfos := p.merchantAccountInfos
      merchantCategoryCode := p.merchantCategoryCode
      transactionCurrency := p.transactionCurrency
      transactionAmount := p.transactionAmount
      tipOrConvenienceIndicator := p.tipOrConvenienceIndicator
      valueConvenienceFeeFixed := p.valueConvenienceFeeFixed
      valueConvenienceFeePercent := p.valueConvenienceFeePercent
      countryCode := p.countryCode
      merchantName := p.merchantName
      merchantCity := p.merchantCity }
    { payloadFormatIndicator := effectivePFI p
      merchantAccountInfos := p.merchantAccountInfos
      merchantCategoryCode := p.merchantCategoryCode
      transactionCurrency := p.transactionCurrency
      transactionAmount := p.transactionAmount
      tipOrConvenienceIndicator := p.tipOrConvenienceIndicator
      valueConvenienceFeeFixed := p.valueConvenienceFeeFixed
      valueConvenienceFeePercent := p.valueConvenienceFeePercent
      countryCode := p.countryCode
      merchantName := p.merchantName
      merchantCity := p.merchantCity
      postalCode := p.postalCode } _ _ rfl rfl).trans ?_
  refine (applyObjects_adfF p
    { payloadFormatIndicator := effectivePFI p
      merchantAccountInfos := p.merchantAccountInfos
      merchantCategoryCode := p.merchantCategoryCode
      transactionCurrency := p.transactionCurrency
      transactionAmount := p.transactionAmount
      tipOrConvenienceIndicator := p.tipOrConvenienceIndicator
      valueConvenienceFeeFixed := p.valueConvenienceFeeFixed
      valueConvenienceFeePercent := p.valueConvenienceFeePercent
      countryCode := p.countryCode
      merchantName := p.merchantName
      merchantCity := p.merchantCity
      postalCode := p.postalCode }
    { payloadFormatIndicator := effectivePFI p
      merchantAccountInfos := p.merchantAccountInfos
      merchantCategoryCode := p.merchantCategoryCode
      transactionCurrency := p.transactionCurrency
      transactionAmount := p.transactionAmount
      tipOrConvenienceIndicator := p.tipOrConvenienceIndicator
      valueConvenienceFeeFixed := p.valueConvenienceFeeFixed
      valueConvenienceFeePercent := p.valueConvenienceFeePercent
      countryCode := p.countryCode
      merchantName := p.merchantName
      merchantCity := p.merchantCity
      postalCode := p.postalCode
      additionalData := p.additionalData } _ hadf rfl rfl).trans ?_
  refine (applyObjects_langF p
    { payloadFormatIndicator := effectivePFI p
      merchantAccountInfos := p.merchantAccountInfos
      merchantCategoryCode := p.merchantCategoryCode
      transactionCurrency := p.transactionCurrency
      transactionAmount := p.transactionAmount
      tipOrConvenienceIndicator := p.tipOrConvenienceIndicator
      valueConvenienceFeeFixed := p.valueConvenienceFeeFixed
      valueConvenienceFeePercent := p.valueConvenienceFeePercent
      countryCode := p.countryCode
      merchantName := p.merchantName
      merchantCity := p.merchantCity
      postalCode := p.postalCode
      additionalData := p.additionalData }
    { payloadFormatIndicator := effectivePFI p
      merchantAccountInfos := p.merchantAccountInfos
      merchantCategoryCode := p.merchantCategoryCode
      transactionCurrency := p.transactionCurrency
      transactionAmount := p.transactionAmount
      tipOrConvenienceIndicator := p.tipOrConvenienceIndicator
      valueConvenienceFeeFixed := p.valueConvenienceFeeFixed
      valueConvenienceFeePercent := p.valueConvenienceFeePercent
      countryCode := p.countryCode
      merchantName := p.merchantName
      merchantCity := p.merchantCity
      postalCode := p.postalCode
      additionalData := p.additionalData
      languageTemplate := p.languageTemplate } _ hlang rfl rfl).trans ?_
  refine (applyObjects_utsF p.unreservedTemplates _
    { payloadFormatIndicator := effectivePFI p
      merchantAccountInfos := p.merchantAccountInfos
      merchantCategoryCode := p.merchantCategoryCode
      transactionCurrency := p.transactionCurrency
      transactionAmount := p.transactionAmount
      tipOrConvenienceIndicator := p.tipOrConvenienceIndicator
      valueConvenienceFeeFixed := p.valueConvenienceFeeFixed
      valueConvenienceFeePercent := p.valueConvenienceFeePercent
      countryCode := p.countryCode
      merchantName := p.merchantName
      merchantCity := p.merchantCity
      postalCode := p.postalCode
      additionalData := p.additionalData
      languageTemplate := p.languageTemplate
      unreservedTemplates := p.unreservedTemplates } _ huts' rfl).trans ?_
  refine (applyObjects_rfusF p.rfuFields _
    { payloadFormatIndicator := effectivePFI p
      merchantAccountInfos := p.merchantAccountInfos
      merchantCategoryCode := p.merchantCategoryCode
      transactionCurrency := p.transactionCurrency
      transactionAmount := p.transactionAmount
      tipOrConvenienceIndicator := p.tipOrConvenienceIndicator
      valueConvenienceFeeFixed := p.valueConvenienceFeeFixed
      valueConvenienceFeePercent := p.valueConvenienceFeePercent
      countryCode := p.countryCode
      merchantName := p.merchantName
      merchantCity := p.merchantCity
      postalCode := p.postalCode
      additionalData := p.additionalData
      languageTemplate := p.languageTemplate
      unreservedTemplates := p.unreservedTemplates
      rfuFields := p.rfuFields } _ hrfu' rfl).trans ?_
  refine (applyObjects_cons_ok _
    { payloadFormatIndicator := effectivePFI p
      merchantAccountInfos := p.merchantAccountInfos
      merchantCategoryCode := p.merchantCategoryCode
      transactionCurrency := p.transactionCurrency
      transactionAmount := p.transactionAmount
      tipOrConvenienceIndicator := p.tipOrConvenienceIndicator
      valueConvenienceFeeFixed := p.valueConvenienceFeeFixed
      valueConvenienceFeePercent := p.valueConvenienceFeePercent
      countryCode := p.countryCode
      merchantName := p.merchantName
      merchantCity := p.merchantCity
      postalCode := p.postalCode
      additionalData := p.additionalData
      languageTemplate := p.languageTemplate
      unreservedTemplates := p.unreservedTemplates
      rfuFields := p.rfuFields
      crc := (crcString c).map upperByte } _ _
    (applyObject_63 _ (crcString c))).trans ?_
  rw [crcString_map_upper]
  rfl

theorem decode_eq (raw : GoStr) :
    decode raw =
      if raw.length < 4 then .err .invalidLength
      else
        match validateCRC raw with
        | .ok _ =>
          match parseTLV raw with
          | .ok objs => applyObjects {} objs
          | .err e => .err e
          | .panicked => .panicked
        | .err e => .err e
        | .panicked => .panicked := rfl

theorem fullRaw_units (p : Payload) :
    fullRaw p = concatUnits (topUnits p ++
      [⟨gs "63", crcString (crc16CCITT (encodedBody p ++ gs "6304"))⟩]) := by
  rw [concatUnits_append, concatUnits_cons, concatUnits_nil, List.append_nil]
  show encodedBody p ++ gs "6304" ++ crcString (crc16CCITT (encodedBody p ++ gs "6304")) =
    encodedBody p ++ unitStr ⟨gs "63", crcString (crc16CCITT (encodedBody p ++ gs "6304"))⟩
  have h63 : gs "63" ++ encLen 4 = gs "6304" := by decide
  simp only [unitStr]
  rw [crcString_length, h63, List.append_assoc]

theorem fullRaw_length (p : Payload) :
    (fullRaw p).length = (encodedBody p).length + 8 := by
  unfold fullRaw
  rw [List.length_append, List.length_append, gs6304_length, crcString_length]

theorem decode_fullRaw (p : Payload) (hwf : wfPayload p = true)
    (hne : crcString (crc16CCITT (encodedBody p ++ gs "6304")) ≠ gs "6304") :
    decode (fullRaw p) =
      .ok { p with
        payloadFormatIndicator := effectivePFI p
        crc := crcString (crc16CCITT (encodedBody p ++ gs "6304")) } := by
  have hunits : ∀ u ∈ topUnits p ++
      [(⟨gs "63", crcString (crc16CCITT (encodedBody p ++ gs "6304"))⟩ : TLVObj)],
      wfUnit u := by
    intro u hu
    rw [List.mem_append] at hu
    rcases hu with h1 | h2
    · exact topUnits_wf p hwf u h1
    · simp only [List.mem_cons, List.not_mem_nil, or_false] at h2
      subst h2
      exact ⟨rfl, by rw [crcString_length]; omega⟩
  have hparse : parseTLV (fullRaw p) = .ok (topUnits p ++
      [⟨gs "63", crcString (crc16CCITT (encodedBody p ++ gs "6304"))⟩]) := by
    rw [fullRaw_units]
    exact parseTLV_concat _ hunits
  have hcrc : validateCRC (fullRaw p) = .ok () := by
    have hv := validateCRC_append (encodedBody p)
      (crcString (crc16CCITT (encodedBody p ++ gs "6304"))) (crcString_length _) hne
    rw [eqFold_refl, if_pos rfl] at hv
    exact hv
  have happly := applyObjects_topUnits p (crc16CCITT (encodedBody p ++ gs "6304")) hwf
  rw [decode_eq, if_neg (show ¬((fullRaw p).length < 4) from by rw [fullRaw_length]; omega),
      hcrc, hparse]
  exact happly

/-- Claim C1 amended: for every payload accepted by the encode-time validator
that is also wire-well-formed (every encoded value within the 99-byte codec
limit, fee values consistent with the tip indicator, merchant entries,
templates and RFU fields shaped as the decoder reproduces them) and whose
computed CRC is not the literal "6304", Encode succeeds, and Decode of the
encoded string succeeds and returns the payload with every observable field
equal to the original; only the payload-format indicator is defaulted to "01"
when empty, and the CRC field holds the freshly computed checksum. -/
theorem roundtrip_amended (p : Payload)
    (hv : validatePayload p = none) (hwf : wfPayload p = true)
    (hne : crcString (crc16CCITT (encodedBody p ++ gs "6304")) ≠ gs "6304") :
    encode p = .ok (fullRaw p) ∧
    decode (fullRaw p) =
      .ok { p with
        payloadFormatIndicator := effectivePFI p
        crc := crcString (crc16CCITT (encodedBody p ++ gs "6304")) } := by
  constructor
  · unfold encode
    rw [hv, encodeFields_ok p hwf]
    rfl
  · exact decode_fullRaw p hwf hne

theorem roundtrip_amended_witness :
    (validatePayload basePayload = none ∧ wfPayload basePayload = true ∧
      crcString (crc16CCITT (encodedBody basePayload ++ gs "6304")) ≠ gs "6304") ∧
    (encode basePayload = .ok (fullRaw basePayload) ∧
      decode (fullRaw basePayload) =
        .ok { basePayload with
          payloadFormatIndicator := effectivePFI basePayload
          crc := crcString (crc16CCITT (encodedBody basePayload ++ gs "6304")) }) :=
  ⟨⟨by decide, by decide, by decide⟩,
    roundtrip_amended basePayload (by decide) (by decide) (by decide)⟩
